import Mathlib

/-!
# Order form controller and suggestion widget

A verification development for `static/js/order_form.js` and
`static/js/autocomplete.js`.

Modelling conventions.

* JavaScript numbers are IEEE-754 doubles (`JsNumber`): `NaN`, the two infinities and
  the finite values with their sign, 53-bit significand and exponent; `*`, `/` and `+`
  round to nearest, ties to even.  A decimal literal and the result of `parseFloat`
  are the double nearest to the decimal.  The value of an input is an
  `Option JsNumber`, where `none` stands for a missing input.
* A DOM element that a handler looks up is an `Option`: `none` is the `null` a
  failed lookup returns.  A handler that dereferences `null` returns
  `Except.error JsError.typeError`.
* Time is counted in whole milliseconds; `setTimeout` / `clearTimeout` act on an
  explicit table of pending timers.
-/

namespace OrderForm

/-! ## Numbers and their rendering -/

/-- A JavaScript Number.  `fin negative m e` is the double `(-1)^negative * m * 2^e`;
the arithmetic below produces it in the form of IEEE-754 binary64: `m < 2^53`,
`-1074 <= e <= 971`, and `2^52 <= m` unless `e = -1074` (a subnormal or a zero). -/
inductive JsNumber where
  | nan
  | inf (negative : Bool)
  | fin (negative : Bool) (m : Nat) (e : Int)
deriving DecidableEq, Repr

/-- The number of binary digits of `n`, with `fuel` steps allowed. -/
def bitLengthAux : Nat → Nat → Nat
  | 0, _ => 0
  | fuel + 1, n => if n = 0 then 0 else bitLengthAux fuel (n / 2) + 1

/-- The number of binary digits of `n`. -/
def bitLength (n : Nat) : Nat := bitLengthAux n n

/-- The numerator of `num / den * 2^k` as a fraction of naturals. -/
def scaleNum (num : Nat) (k : Int) : Nat := if 0 ≤ k then num * 2 ^ k.toNat else num

/-- The denominator of `num / den * 2^k` as a fraction of naturals. -/
def scaleDen (den : Nat) (k : Int) : Nat := if 0 ≤ k then den else den * 2 ^ (-k).toNat

/-- The double nearest to `(-1)^negative * num / den * 2^exp` (`den` positive), ties to
the even significand, with gradual underflow and overflow to infinity. -/
def JsNumber.round (negative : Bool) (num den : Nat) (exp : Int) : JsNumber :=
  if num = 0 then .fin negative 0 (-1074)
  else
    let e0 : Int := (bitLength num : Int) - (bitLength den : Int) + exp - 52
    let e1 : Int :=
      if scaleNum num (exp - e0) / scaleDen den (exp - e0) < 2 ^ 52 then e0 - 1 else e0
    let e : Int := max e1 (-1074)
    let n := scaleNum num (exp - e)
    let d := scaleDen den (exp - e)
    let m0 := n / d
    let r := n % d
    let m := if d < 2 * r ∨ (2 * r = d ∧ m0 % 2 = 1) then m0 + 1 else m0
    if m = 2 ^ 53 then (if 971 < e + 1 then .inf negative else .fin negative (2 ^ 52) (e + 1))
    else if 971 < e then .inf negative else .fin negative m e

/-- The operator `*`. -/
def JsNumber.mul : JsNumber → JsNumber → JsNumber
  | .nan, _ => .nan
  | _, .nan => .nan
  | .inf s, .inf t => .inf (xor s t)
  | .inf s, .fin t m _ => if m = 0 then .nan else .inf (xor s t)
  | .fin s m _, .inf t => if m = 0 then .nan else .inf (xor s t)
  | .fin s m e, .fin t n f => JsNumber.round (xor s t) (m * n) 1 (e + f)

/-- The operator `/`. -/
def JsNumber.div : JsNumber → JsNumber → JsNumber
  | .nan, _ => .nan
  | _, .nan => .nan
  | .inf _, .inf _ => .nan
  | .inf s, .fin t _ _ => .inf (xor s t)
  | .fin s _ _, .inf t => .fin (xor s t) 0 (-1074)
  | .fin s m e, .fin t n f =>
    if n = 0 then (if m = 0 then .nan else .inf (xor s t))
    else JsNumber.round (xor s t) m n (e - f)

/-- The operator `+`. -/
def JsNumber.add : JsNumber → JsNumber → JsNumber
  | .nan, _ => .nan
  | _, .nan => .nan
  | .inf s, .inf t => if s = t then .inf s else .nan
  | .inf s, .fin _ _ _ => .inf s
  | .fin _ _ _, .inf t => .inf t
  | .fin s m e, .fin t n f =>
    let g := min e f
    let a : Int := (if s then -1 else 1) * (m * 2 ^ (e - g).toNat : Nat)
    let b : Int := (if t then -1 else 1) * (n * 2 ^ (f - g).toNat : Nat)
    if a + b = 0 then .fin (s && t) 0 (-1074)
    else JsNumber.round (decide (a + b < 0)) (a + b).natAbs 1 g

instance : Mul JsNumber := ⟨JsNumber.mul⟩

instance : Div JsNumber := ⟨JsNumber.div⟩

instance : Add JsNumber := ⟨JsNumber.add⟩

/-- An integer literal. -/
instance (n : Nat) : OfNat JsNumber n := ⟨JsNumber.round false n 1 0⟩

/-- A decimal literal: the double nearest to it. -/
instance : OfScientific JsNumber :=
  ⟨fun mantissa exponentSign decimalExponent =>
    if exponentSign then JsNumber.round false mantissa (10 ^ decimalExponent) 0
    else JsNumber.round false (mantissa * 10 ^ decimalExponent) 1 0⟩

/-- Whether the number is truthy: neither `NaN` nor a zero. -/
def JsNumber.truthy : JsNumber → Bool
  | .nan => false
  | .inf _ => true
  | .fin _ m _ => m != 0

/-- The expression `x || 0`. -/
def JsNumber.orZero (x : JsNumber) : JsNumber :=
  if x.truthy then x else 0

/-- The comparison `x >= 0`. -/
def JsNumber.isNonNegative : JsNumber → Bool
  | .nan => false
  | .inf s => !s
  | .fin s m _ => !s || m == 0

/-- Two decimal digits of a number below one hundred, with a leading zero. -/
def pad2 (n : Nat) : String :=
  if n < 10 then "0" ++ toString n else toString n

/-- The integer `n` for which `n / 100` is nearest to `m * 2^e`, the larger one of
two. -/
def cents (m : Nat) (e : Int) : Nat :=
  if 0 ≤ e then 100 * m * 2 ^ e.toNat
  else (2 * 100 * m + 2 ^ (-e).toNat) / (2 * 2 ^ (-e).toNat)

/-- The number of decimal digits of `n`, with `fuel` steps allowed. -/
def decimalLengthAux : Nat → Nat → Nat
  | 0, _ => 0
  | fuel + 1, n => if n = 0 then 0 else decimalLengthAux fuel (n / 10) + 1

/-- The number of decimal digits of `n`. -/
def decimalLength (n : Nat) : Nat := decimalLengthAux n n

/-- The number `n` without its trailing decimal zeros. -/
def stripZeros : Nat → Nat → Nat
  | 0, n => n
  | fuel + 1, n => if n ≠ 0 ∧ n % 10 = 0 then stripZeros fuel (n / 10) else n

/-- The shortest decimal that reads back as the double `self`, whose value is the
integer `x` of `n` digits: the search tries `k = 1, 2, ...` significant digits and
returns the digits `s` and the digit count of the decimal `s * 10^(n - k)`. -/
def shortestDigits (x : Nat) (self : JsNumber) (n : Nat) : Nat → Nat → Option (Nat × Nat)
  | 0, _ => none
  | fuel + 1, k =>
    let p := 10 ^ (n - k)
    let lo := x / p
    let hi := lo + 1
    let okLo := decide (JsNumber.round false (lo * p) 1 0 = self)
    let okHi := decide (JsNumber.round false (hi * p) 1 0 = self)
    let pick : Option Nat :=
      if okLo ∧ okHi then (if x - lo * p ≤ hi * p - x then some lo else some hi)
      else if okLo then some lo
      else if okHi then some hi
      else none
    match pick with
    | some s => if s = 10 ^ k then some (1, n + 1) else some (s, n)
    | none => shortestDigits x self n fuel (k + 1)

/-- The text `Number::toString` gives for a double of value `x >= 10^21`: the shortest
digits that read back as the double, in exponent form. -/
def exponentForm (x : Nat) (self : JsNumber) : String :=
  match shortestDigits x self (decimalLength x) 17 1 with
  | none => ""
  | some (s, n) =>
    let digits := toString (stripZeros 20 s)
    (if digits.drop 1 = "" then digits.take 1 else digits.take 1 ++ "." ++ digits.drop 1)
      ++ "e+" ++ toString (n - 1)

/-- The call `x.toFixed(2)`: `NaN` and the infinities by name; otherwise the sign is
split off and the magnitude is printed in exponent form from `10^21` on, and rounded
to the nearest hundredth (a tie takes the larger one) with two decimals below. -/
def toFixed2 : JsNumber → String
  | .nan => "NaN"
  | .inf s => if s then "-Infinity" else "Infinity"
  | .fin s m e =>
    (if s ∧ m ≠ 0 then "-" else "") ++
      (if 0 ≤ e ∧ 10 ^ 21 ≤ m * 2 ^ e.toNat then
        exponentForm (m * 2 ^ e.toNat) (.fin false m e)
      else toString (cents m e / 100) ++ "." ++ pad2 (cents m e % 100))

/-! ## The page -/

/-- A cell with the two currency lines `.bgn-price` and `.eur-price`; each holds the
`textContent` of the line, `none` when the line is not in the cell. -/
structure PriceCell where
  bgnPrice : Option String
  eurPrice : Option String
deriving DecidableEq

/-- One `tr` of the items table: the `name` attributes of its form controls, what
`parseFloat` makes of its quantity and price inputs (`none` for a missing input),
whether its VAT box is checked, and its two display cells. -/
structure Row where
  names : List String
  quantity : Option JsNumber
  price : Option JsNumber
  includeVat : Option Bool
  priceWithVatCell : Option PriceCell
  totalPriceCell : Option PriceCell
deriving DecidableEq

/-- The expression `parseFloat(quantityInput?.value) || 0`. -/
def Row.qty (row : Row) : JsNumber := (row.quantity.getD .nan).orZero

/-- The expression `parseFloat(priceInput?.value) || 0`. -/
def Row.unitPrice (row : Row) : JsNumber := (row.price.getD .nan).orZero

/-- The expression `includeVatCheckbox?.checked || false`. -/
def Row.vat (row : Row) : Bool := row.includeVat.getD false

/-- The parts of the document the order form controller reads and writes. -/
structure Page where
  eurRate : JsNumber
  itemsTableBody : Option (List Row)
  totalForms : Option Nat
  totalWithoutVat : Option PriceCell
  totalVat : Option PriceCell
  totalWithVat : Option PriceCell
  vatRow : Option String
  totalLabel : Option String
deriving DecidableEq

/-- An exception a handler can raise. -/
inductive JsError where
  | typeError
deriving DecidableEq, Repr

/-- The module variable `eurRate` at load time. -/
def defaultEurRate : JsNumber := 1.95583

/-- The function `loadEurRate`, at the moment its request settles: `none` is a failed
request, `some none` a reply without a rate, `some (some r)` a reply with `rate: r`.
A rate that is zero or `NaN` is falsy and is skipped. -/
def loadEurRate (p : Page) (reply : Option (Option JsNumber)) : Page :=
  match reply with
  | some (some rate) => if rate.truthy then { p with eurRate := rate } else p
  | _ => p

/-- The two guarded `textContent` writes into a price cell. -/
def PriceCell.setAmount (eurRate : JsNumber) (cell : PriceCell) (amount : JsNumber) :
    PriceCell :=
  { bgnPrice := cell.bgnPrice.map fun _ => toFixed2 amount ++ " лв."
    eurPrice := cell.eurPrice.map fun _ => toFixed2 (amount / eurRate) ++ " €" }

/-- The function `calculateRowTotal`. -/
def calculateRowTotal (eurRate : JsNumber) (row : Row) : Row :=
  let quantity := row.qty
  let price := row.unitPrice
  let includeVat := row.vat
  let totalPrice := quantity * price
  let priceWithVat := if includeVat then price * 1.20 else price
  let _totalWithVat := if includeVat then totalPrice * 1.20 else totalPrice
  { row with
    priceWithVatCell := row.priceWithVatCell.map fun cell => cell.setAmount eurRate priceWithVat
    totalPriceCell := row.totalPriceCell.map fun cell => cell.setAmount eurRate totalPrice }

/-- The four accumulators of `calculateGrandTotal`. -/
structure Totals where
  totalWithoutVat : JsNumber
  totalVat : JsNumber
  totalWithVat : JsNumber
  hasVatItems : Bool
deriving DecidableEq

/-- The body of the `forEach` in `calculateGrandTotal`. -/
def grandTotalStep (acc : Totals) (row : Row) : Totals :=
  let quantity := row.qty
  let price := row.unitPrice
  let includeVat := row.vat
  let rowTotal := quantity * price
  let totalWithoutVat := acc.totalWithoutVat + rowTotal
  if includeVat then
    let rowVat := rowTotal * 0.20
    { totalWithoutVat := totalWithoutVat
      totalVat := acc.totalVat + rowVat
      totalWithVat := acc.totalWithVat + (rowTotal + rowVat)
      hasVatItems := true }
  else
    { acc with
      totalWithoutVat := totalWithoutVat
      totalWithVat := acc.totalWithVat + rowTotal }

/-- The sum of a list of numbers as a loop with `+=` computes it: from 0, in list
order. -/
def jsSum (xs : List JsNumber) : JsNumber :=
  xs.foldl (fun acc x => acc + x) 0

/-- The loop of `calculateGrandTotal` over the rows of the items table. -/
def grandTotals (rows : List Row) : Totals :=
  rows.foldl grandTotalStep ⟨0, 0, 0, false⟩

/-- The function `updateTotalDisplay`, on the element the id resolves to. -/
def updateTotalDisplay (eurRate : JsNumber) (element : Option PriceCell) (amount : JsNumber) :
    Option PriceCell :=
  element.map fun cell => cell.setAmount eurRate amount

/-- The function `calculateGrandTotal`.  `document.querySelectorAll` finds no rows
when the table body is missing. -/
def calculateGrandTotal (p : Page) : Page :=
  let t := grandTotals (p.itemsTableBody.getD [])
  { p with
    totalWithoutVat := updateTotalDisplay p.eurRate p.totalWithoutVat t.totalWithoutVat
    totalVat := updateTotalDisplay p.eurRate p.totalVat t.totalVat
    totalWithVat := updateTotalDisplay p.eurRate p.totalWithVat t.totalWithVat
    vatRow := p.vatRow.map fun _ => if t.hasVatItems then "" else "none"
    totalLabel := p.totalLabel.map fun _ =>
      if t.hasVatItems then "Общо с ДДС:" else "Общо:" }

/-! ## Row lifecycle -/

/-- The name `order_items-<index>-<fieldname>` of a form control. -/
def fieldName (index : Nat) (field : String) : String :=
  "order_items-" ++ toString index ++ "-" ++ field

/-- The `name` attributes in the markup `addNewItemRow` builds, in document order. -/
def newRowNames (rowCount : Nat) : List String :=
  ["sklad_item", "article_number", "name", "unit", "quantity", "purchase_price",
    "include_vat"].map (fieldName rowCount)

/-- The row `addNewItemRow` builds: empty number inputs (`parseFloat` of the empty text
is `NaN`), a checked VAT box and the two display cells at zero. -/
def newItemRow (rowCount : Nat) : Row :=
  { names := newRowNames rowCount
    quantity := some .nan
    price := some .nan
    includeVat := some true
    priceWithVatCell := some ⟨some "0.00 лв.", some "0.00 €"⟩
    totalPriceCell := some ⟨some "0.00 лв.", some "0.00 €"⟩ }

/-- The function `updateFormsetManagement`. -/
def updateFormsetManagement (p : Page) : Except JsError Page :=
  match p.totalForms with
  | some _ =>
    match p.itemsTableBody with
    | some rows => .ok { p with totalForms := some rows.length }
    | none => .error .typeError
  | none => .ok p

/-- The function `addNewItemRow`, up to the point where the row is in the table and
the management form is updated (the unit list request and the listeners it wires
afterwards change nothing in the table). -/
def addNewItemRow (p : Page) : Except JsError Page :=
  match p.itemsTableBody with
  | none => .error .typeError
  | some rows =>
    let rowCount := rows.length
    let newRow := newItemRow rowCount
    updateFormsetManagement { p with itemsTableBody := some (rows ++ [newRow]) }

/-- The click handler for `.remove-item-btn`.  `row` is what
`e.target.closest('tr')` finds: `none` for no row, `some i` for the row at
position `i` of the items table body, and a position past the end for a `tr` that
lies outside the items table body. -/
def removeItemClick (p : Page) (row : Option Nat) : Except JsError Page :=
  match row with
  | none => .ok p
  | some i =>
    (updateFormsetManagement
      { p with itemsTableBody := p.itemsTableBody.map fun rows => rows.eraseIdx i }).map
      calculateGrandTotal

/-- The click handler of `#addItemBtn`. -/
def addItemClick (p : Page) : Except JsError Page :=
  addNewItemRow p

/-! ## Strings -/

/-- The code points `String.prototype.trim` strips: WhiteSpace and LineTerminator. -/
def isJsWhiteSpace (c : Char) : Bool :=
  [0x09, 0x0A, 0x0B, 0x0C, 0x0D, 0x20, 0xA0, 0x1680, 0x2028, 0x2029, 0x202F, 0x205F,
    0x3000, 0xFEFF].contains c.toNat || (0x2000 ≤ c.toNat && c.toNat ≤ 0x200A)

/-- The method `String.prototype.trim`. -/
def jsTrim (s : String) : String :=
  String.mk ((s.toList.dropWhile isJsWhiteSpace).reverse.dropWhile isJsWhiteSpace).reverse

/-- The property `length` of a string: its number of UTF-16 code units. -/
def jsLength (s : String) : Nat :=
  (s.toList.map fun c => if c.toNat < 0x10000 then 1 else 2).sum

/-! ## Timers and requests -/

/-- What a pending timer of a suggestion input does when it fires. -/
inductive TimerAction where
  | search (query : String)
  | hideSuggestions
deriving DecidableEq, Repr

/-- A pending timer: the handle `setTimeout` returned, the millisecond at which it
is due, and its callback. -/
structure Timer where
  id : Nat
  due : Nat
  action : TimerAction
deriving DecidableEq, Repr

/-- Whether the callback of the timer is a search. -/
def Timer.isSearch (t : Timer) : Bool :=
  match t.action with
  | .search _ => true
  | .hideSuggestions => false

/-- The text a search timer carries. -/
def Timer.query (t : Timer) : String :=
  match t.action with
  | .search q => q
  | .hideSuggestions => ""

/-- A `fetch` call: the endpoint, the text passed as `q` (before
`encodeURIComponent`) and the `field` parameter when the URL has one. -/
structure Request where
  url : String
  q : String
  field : Option String
deriving DecidableEq, Repr

/-- The clock, the timers of one suggestion input that are still pending, and the
requests issued so far.  Handles are positive and never reused. -/
structure Browser where
  now : Nat
  nextTimerId : Nat
  timers : List Timer
  requests : List Request
deriving DecidableEq, Repr

/-- A browser at time `now` with nothing pending and nothing requested. -/
def Browser.fresh (now : Nat) : Browser :=
  { now := now, nextTimerId := 1, timers := [], requests := [] }

/-- The call `setTimeout(callback, delay)`; the second component is the handle. -/
def Browser.setTimeout (b : Browser) (action : TimerAction) (delay : Nat) : Browser × Nat :=
  ({ b with
      nextTimerId := b.nextTimerId + 1
      timers := b.timers ++ [⟨b.nextTimerId, b.now + delay, action⟩] },
    b.nextTimerId)

/-- The call `clearTimeout(id)`. -/
def Browser.clearTimeout (b : Browser) (id : Nat) : Browser :=
  { b with timers := b.timers.filter fun t => t.id != id }

/-- The call `fetch(url)`. -/
def Browser.fetch (b : Browser) (r : Request) : Browser :=
  { b with requests := b.requests ++ [r] }

/-- What firing one timer does to the browser: a search timer issues the request
`mk` builds from its text, a hide timer issues nothing. -/
def Browser.fire (mk : String → Request) (b : Browser) (t : Timer) : Browser :=
  match t.action with
  | .search q => b.fetch (mk q)
  | .hideSuggestions => b

/-- One millisecond passes: the timers that are due are taken off the table and fire
in the order they were set. -/
def Browser.tick (mk : String → Request) (b : Browser) : Browser :=
  let now := b.now + 1
  (b.timers.filter fun t => decide (t.due ≤ now)).foldl (Browser.fire mk)
    { b with now := now, timers := b.timers.filter fun t => !decide (t.due ≤ now) }

/-- The browser after `n` milliseconds without any event. -/
def Browser.elapse (mk : String → Request) (b : Browser) : Nat → Browser
  | 0 => b
  | n + 1 => Browser.elapse mk (b.tick mk) n

/-! ## The suggestion widget of `autocomplete.js` -/

/-- A record of the suggestion endpoint: its fields by name. -/
abbrev Suggestion := List (String × String)

/-- The options of an `Autocomplete`; `onSelect` tells whether a callback function
is configured. -/
structure AutocompleteOptions where
  minLength : Nat
  delay : Nat
  apiUrl : String
  field : String
  onSelect : Bool
  placeholder : String
deriving DecidableEq, Repr

/-- The defaults the constructor merges the caller's options into. -/
def AutocompleteOptions.defaults : AutocompleteOptions :=
  { minLength := 2
    delay := 300
    apiUrl := "/sklad/autocomplete/"
    field := "article_number"
    onSelect := false
    placeholder := "Търсене..." }

/-- The fields of an `Autocomplete` instance, with the value of its input and the
`display` style of its container. -/
structure Autocomplete where
  options : AutocompleteOptions
  inputValue : String
  containerDisplay : String
  suggestions : List Suggestion
  selectedIndex : Int
  timeout : Option Nat
  isOpen : Bool
deriving DecidableEq, Repr

/-- The constructor followed by `init`, on an input holding `inputValue`. -/
def Autocomplete.new (options : AutocompleteOptions) (inputValue : String) : Autocomplete :=
  { options := options
    inputValue := inputValue
    containerDisplay := "none"
    suggestions := []
    selectedIndex := -1
    timeout := none
    isOpen := false }

/-- The method `hideSuggestions`. -/
def Autocomplete.hideSuggestions (w : Autocomplete) : Autocomplete :=
  { w with containerDisplay := "none", isOpen := false, selectedIndex := -1 }

/-- The request `search(query)` sends. -/
def Autocomplete.searchRequest (options : AutocompleteOptions) (query : String) : Request :=
  { url := options.apiUrl, q := query, field := some options.field }

/-- A widget together with the browser it runs in. -/
structure AcState where
  widget : Autocomplete
  browser : Browser
deriving DecidableEq, Repr

/-- The method `handleInput`; `event.target.value` is the value of the input. -/
def Autocomplete.handleInput (s : AcState) : AcState :=
  let query := jsTrim s.widget.inputValue
  let browser :=
    match s.widget.timeout with
    | some id => if id ≠ 0 then s.browser.clearTimeout id else s.browser
    | none => s.browser
  if jsLength query < s.widget.options.minLength then
    { widget := s.widget.hideSuggestions, browser := browser }
  else
    let (browser, id) := browser.setTimeout (.search query) s.widget.options.delay
    { widget := { s.widget with timeout := some id }, browser := browser }

/-- The method `handleBlur`. -/
def Autocomplete.handleBlur (s : AcState) : AcState :=
  { s with browser := (s.browser.setTimeout .hideSuggestions 150).1 }

/-- The method `handleFocus`, up to the request `search` sends. -/
def Autocomplete.handleFocus (s : AcState) : AcState :=
  if jsLength (jsTrim s.widget.inputValue) ≥ s.widget.options.minLength then
    { s with
      browser := s.browser.fetch
        (Autocomplete.searchRequest s.widget.options (jsTrim s.widget.inputValue)) }
  else s

/-- One millisecond passes for a widget: each due hide timer runs `hideSuggestions`,
each due search timer runs `search`, which sends its request. -/
def Autocomplete.tick (s : AcState) : AcState :=
  { widget :=
      ((s.browser.timers.filter fun t => decide (t.due ≤ s.browser.now + 1)).foldl
        (fun w t => if t.isSearch then w else w.hideSuggestions) s.widget)
    browser := s.browser.tick (Autocomplete.searchRequest s.widget.options) }

/-- What can happen to a widget: the user changes the text, the input loses or gains
focus, or time passes. -/
inductive AcEvent where
  | input (value : String)
  | blur
  | focus
  | elapse (ms : Nat)
deriving DecidableEq, Repr

/-- The widget after `n` milliseconds without any event. -/
def Autocomplete.elapse (s : AcState) : Nat → AcState
  | 0 => s
  | n + 1 => Autocomplete.elapse (Autocomplete.tick s) n

/-- The widget after one event. -/
def Autocomplete.step (s : AcState) : AcEvent → AcState
  | .input value =>
    Autocomplete.handleInput { s with widget := { s.widget with inputValue := value } }
  | .blur => Autocomplete.handleBlur s
  | .focus => Autocomplete.handleFocus s
  | .elapse ms => Autocomplete.elapse s ms

/-- The widget after a sequence of events. -/
def Autocomplete.run (s : AcState) (events : List AcEvent) : AcState :=
  events.foldl Autocomplete.step s

/-- A widget just constructed, at time `now`. -/
def Autocomplete.start (options : AutocompleteOptions) (inputValue : String) (now : Nat) :
    AcState :=
  { widget := Autocomplete.new options inputValue, browser := Browser.fresh now }

/-! ## The suggestion inputs wired by `setupAutocomplete` -/

/-- The closure of one `setupAutocomplete` call: its `url`, the value of its input,
the variables `timeout` and `dropdown`, and the dropdown element currently in the
document (the suggestions it lists), if any. -/
structure SetupAutocomplete where
  url : String
  inputValue : String
  timeout : Option Nat
  dropdown : Option Unit
  shown : Option (List Suggestion)
deriving DecidableEq, Repr

/-- The request the timer callback of `setupAutocomplete` sends. -/
def SetupAutocomplete.request (url : String) (query : String) : Request :=
  { url := url, q := query, field := none }

/-- An input wired by `setupAutocomplete` together with the browser it runs in. -/
structure SetupState where
  closure : SetupAutocomplete
  browser : Browser
deriving DecidableEq, Repr

/-- The `input` listener `setupAutocomplete` installs. -/
def SetupAutocomplete.handleInput (s : SetupState) : SetupState :=
  let query := jsTrim s.closure.inputValue
  let browser :=
    match s.closure.timeout with
    | some id => s.browser.clearTimeout id
    | none => s.browser
  let closure :=
    match s.closure.dropdown with
    | some _ => { s.closure with shown := none }
    | none => s.closure
  if jsLength query < 2 then
    { closure := closure, browser := browser }
  else
    let (browser, id) := browser.setTimeout (.search query) 300
    { closure := { closure with timeout := some id }, browser := browser }

/-- What can happen to such an input: the user changes the text, or time passes. -/
inductive SetupEvent where
  | input (value : String)
  | elapse (ms : Nat)
deriving DecidableEq, Repr

/-- The input after one event. -/
def SetupAutocomplete.step (s : SetupState) : SetupEvent → SetupState
  | .input value =>
    SetupAutocomplete.handleInput { s with closure := { s.closure with inputValue := value } }
  | .elapse ms =>
    { s with browser := s.browser.elapse (SetupAutocomplete.request s.closure.url) ms }

/-- The input after a sequence of events. -/
def SetupAutocomplete.run (s : SetupState) (events : List SetupEvent) : SetupState :=
  events.foldl SetupAutocomplete.step s

/-- An input just wired, at time `now`. -/
def SetupAutocomplete.start (url inputValue : String) (now : Nat) : SetupState :=
  { closure :=
      { url := url, inputValue := inputValue, timeout := none, dropdown := none, shown := none }
    browser := Browser.fresh now }

/-- The search timers that are pending. -/
def Browser.searchTimers (b : Browser) : List Timer :=
  b.timers.filter Timer.isSearch

/-! ## Invariants of the timer table -/

/-- The part of the timer invariant that does not mention the widget: handles are
positive, below the next handle, and pairwise different. -/
structure Browser.Base (b : Browser) : Prop where
  next_pos : 0 < b.nextTimerId
  pos : ∀ t ∈ b.timers, 0 < t.id
  fresh : ∀ t ∈ b.timers, t.id < b.nextTimerId
  nodup : (b.timers.map Timer.id).Nodup

/-- Every pending search timer is the one whose handle the widget holds. -/
def Browser.Owned (b : Browser) (handle : Option Nat) : Prop :=
  ∀ t ∈ b.searchTimers, handle = some t.id

/-- The timer invariant of a widget of `autocomplete.js`. -/
def AcState.Inv (s : AcState) : Prop :=
  s.browser.Base ∧ s.browser.Owned s.widget.timeout

/-- The timer invariant of an input wired by `setupAutocomplete`. -/
def SetupState.Inv (s : SetupState) : Prop :=
  s.browser.Base ∧ s.browser.Owned s.closure.timeout

/-- The events of a burst after its first input: each entry is the pause in
milliseconds since the input before it, and the new text. -/
def acBurst : List (Nat × String) → List AcEvent
  | [] => []
  | (gap, value) :: rest => .elapse gap :: .input value :: acBurst rest

/-- The same burst for an input wired by `setupAutocomplete`. -/
def setupBurst : List (Nat × String) → List SetupEvent
  | [] => []
  | (gap, value) :: rest => .elapse gap :: .input value :: setupBurst rest

/-- The text of the last input of a burst that starts with `value`. -/
def lastValue (value : String) : List (Nat × String) → String
  | [] => value
  | (_, next) :: rest => lastValue next rest

/-! ## Sample data -/

/-- A row whose three inputs hold `q`, `p` and `vat` and whose display cells are
present and still empty. -/
def inputRow (q p : JsNumber) (vat : Bool) : Row :=
  { names := []
    quantity := some q
    price := some p
    includeVat := some vat
    priceWithVatCell := some ⟨some "", some ""⟩
    totalPriceCell := some ⟨some "", some ""⟩ }

/-- The page of the example: the given rows, all totals elements present. -/
def examplePage (rows : List Row) : Page :=
  { eurRate := defaultEurRate
    itemsTableBody := some rows
    totalForms := some rows.length
    totalWithoutVat := some ⟨some "", some ""⟩
    totalVat := some ⟨some "", some ""⟩
    totalWithVat := some ⟨some "", some ""⟩
    vatRow := some "none"
    totalLabel := some "" }

/-- A page whose hidden count field holds `count` while its table holds `rows`. -/
def pageWithCount (rows : List Row) (count : Nat) : Page :=
  { examplePage rows with totalForms := some count }

/-! ## The suggestion list of `autocomplete.js` -/

/-- The property read `suggestion[name]`, as the text an input takes when it is
assigned to its value: a record without the property gives `undefined`. -/
def Suggestion.field (s : Suggestion) (name : String) : String :=
  (List.lookup name s).getD "undefined"

/-- Whether the item template of `renderSuggestions` can be built for the record:
`suggestion.purchase_price.toFixed(2)` throws for a record without a price. -/
def Suggestion.renders (s : Suggestion) : Bool :=
  (List.lookup "purchase_price" s).isSome

/-- A widget in its browser, with the records its container currently holds an item
for (in document order) and the calls of the `onSelect` callback made so far. -/
structure AcView where
  state : AcState
  items : List Suggestion
  selected : List Suggestion
deriving DecidableEq, Repr

/-- The keys `handleKeydown` tells apart. -/
inductive Key where
  | arrowDown
  | arrowUp
  | enter
  | escape
  | other
deriving DecidableEq, Repr

/-- The view with its widget replaced. -/
def AcView.withWidget (v : AcView) (w : Autocomplete) : AcView :=
  { v with state := { v.state with widget := w } }

/-- The method `showSuggestions`. -/
def Autocomplete.showSuggestions (w : Autocomplete) : Autocomplete :=
  { w with containerDisplay := "block", isOpen := true }

/-- The method `selectSuggestion`: the callback, when one is configured, is called
with the record; what the callback itself does is outside the model. -/
def Autocomplete.selectSuggestion (v : AcView) (suggestion : Suggestion) : AcView :=
  { v with
    state := { v.state with
      widget := Autocomplete.hideSuggestions
        { v.state.widget with
          inputValue := suggestion.field v.state.widget.options.field } }
    selected :=
      if v.state.widget.options.onSelect then v.selected ++ [suggestion] else v.selected }

/-- The method `handleKeydown`.  `updateSelection` only restyles the items.  An index
that names no record makes `selectSuggestion(undefined)` throw. -/
def Autocomplete.handleKeydown (v : AcView) (key : Key) : Except JsError AcView :=
  if !v.state.widget.isOpen then .ok v
  else
    match key with
    | .arrowDown =>
      .ok (v.withWidget { v.state.widget with
        selectedIndex := min (v.state.widget.selectedIndex + 1)
          ((v.state.widget.suggestions.length : Int) - 1) })
    | .arrowUp =>
      .ok (v.withWidget { v.state.widget with
        selectedIndex := max (v.state.widget.selectedIndex - 1) (-1) })
    | .enter =>
      if v.state.widget.selectedIndex ≥ 0 then
        match v.state.widget.suggestions[v.state.widget.selectedIndex.toNat]? with
        | some suggestion => .ok (Autocomplete.selectSuggestion v suggestion)
        | none => .error .typeError
      else .ok v
    | .escape => .ok (v.withWidget v.state.widget.hideSuggestions)
    | .other => .ok v

/-- The method `renderSuggestions`; the flag tells whether the item template threw,
in which case the items built before it are in the container and the list is not
shown. -/
def Autocomplete.renderSuggestions (v : AcView) : AcView × Bool :=
  if v.state.widget.suggestions.length = 0 then
    (v.withWidget v.state.widget.hideSuggestions, false)
  else if v.state.widget.suggestions.all Suggestion.renders then
    ({ v with items := v.state.widget.suggestions }.withWidget
      v.state.widget.showSuggestions, false)
  else
    ({ v with items := v.state.widget.suggestions.takeWhile Suggestion.renders }, true)

/-- The method `search` from the moment its request settles: `none` is a request or a
body that failed, `some none` a reply without `suggestions`, `some (some l)` a reply
with the list `l`.  Whatever is thrown lands in the `catch`, which hides the list. -/
def Autocomplete.searchSettled (v : AcView) (reply : Option (Option (List Suggestion))) :
    AcView :=
  match reply with
  | none => v.withWidget v.state.widget.hideSuggestions
  | some data =>
    let rendered := Autocomplete.renderSuggestions
      (v.withWidget { v.state.widget with suggestions := data.getD [], selectedIndex := -1 })
    if rendered.2 then rendered.1.withWidget rendered.1.state.widget.hideSuggestions
    else rendered.1

/-- The method `clear`. -/
def Autocomplete.clear (v : AcView) : AcView :=
  v.withWidget (Autocomplete.hideSuggestions { v.state.widget with suggestions := [] })

/-- The `mouseenter` listener of the item at `index`. -/
def Autocomplete.itemMouseenter (v : AcView) (index : Nat) : AcView :=
  v.withWidget { v.state.widget with selectedIndex := index }

/-- The `click` listener of the item at `index`, which holds the record it was built
from. -/
def Autocomplete.itemClick (v : AcView) (index : Nat) : AcView :=
  match v.items[index]? with
  | some suggestion => Autocomplete.selectSuggestion v suggestion
  | none => v

/-- What can happen to a widget and its list: an event of the input or the clock, a
key, the pointer on an item, a settled request, or a call of `clear`. -/
inductive ViewEvent where
  | widget (e : AcEvent)
  | keydown (key : Key)
  | mouseenter (index : Nat)
  | click (index : Nat)
  | searchSettled (reply : Option (Option (List Suggestion)))
  | clear
deriving DecidableEq, Repr

/-- Whether the pointer can reach the item at `index`: the item is in the container
and the container is displayed.  A browser delivers pointer events only to elements
that are displayed, so an item of a container with `display: none` gets none. -/
def AcView.reachable (v : AcView) (index : Nat) : Bool :=
  v.state.widget.containerDisplay != "none" && decide (index < v.items.length)

/-- The view after one event.  A handler that throws leaves the view as it was. -/
def AcView.step (v : AcView) : ViewEvent → AcView
  | .widget e => { v with state := Autocomplete.step v.state e }
  | .keydown key =>
    match Autocomplete.handleKeydown v key with
    | .ok v' => v'
    | .error _ => v
  | .mouseenter index => if v.reachable index then Autocomplete.itemMouseenter v index else v
  | .click index => if v.reachable index then Autocomplete.itemClick v index else v
  | .searchSettled reply => Autocomplete.searchSettled v reply
  | .clear => Autocomplete.clear v

/-- The view after a sequence of events. -/
def AcView.run (v : AcView) (events : List ViewEvent) : AcView :=
  events.foldl AcView.step v

/-- The view of a widget just constructed, at time `now`. -/
def AcView.start (options : AutocompleteOptions) (inputValue : String) (now : Nat) : AcView :=
  { state := Autocomplete.start options inputValue now, items := [], selected := [] }

/-- The second widget keeps the records of the first and has either the same list
state or a hidden list. -/
def Autocomplete.Settles (w w' : Autocomplete) : Prop :=
  w'.suggestions = w.suggestions ∧
  ((w'.containerDisplay = w.containerDisplay ∧ w'.isOpen = w.isOpen ∧
      w'.selectedIndex = w.selectedIndex) ∨
    (w'.containerDisplay = "none" ∧ w'.isOpen = false ∧ w'.selectedIndex = -1))

/-- The invariant of the list: the highlighted index is within the bounds of the
records, a displayed container is an open list, an open list has an item for each
record, and a closed list highlights nothing. -/
structure AcView.Inv (v : AcView) : Prop where
  lower : -1 ≤ v.state.widget.selectedIndex
  upper : v.state.widget.selectedIndex ≤ (v.state.widget.suggestions.length : Int) - 1
  displayed : v.state.widget.containerDisplay ≠ "none" → v.state.widget.isOpen = true
  rendered : v.state.widget.isOpen = true → v.items = v.state.widget.suggestions
  closed : v.state.widget.isOpen = false → v.state.widget.selectedIndex = -1

/-- An open list over the given records with the given highlighted index. -/
def openView (suggestions : List Suggestion) (selectedIndex : Int) : AcView :=
  { state :=
      { widget :=
          { Autocomplete.new AutocompleteOptions.defaults "" with
            suggestions := suggestions
            selectedIndex := selectedIndex
            containerDisplay := "block"
            isOpen := true }
        browser := Browser.fresh 0 }
    items := suggestions
    selected := [] }

/-- Two records of the suggestion endpoint. -/
def sampleSuggestions : List Suggestion :=
  [[("article_number", "A1"), ("name", "Filter"), ("purchase_price", "12.5")],
    [("article_number", "A2"), ("name", "Belt"), ("purchase_price", "30")]]

/-! ## The catalogue picker -/

/-- The `pagination` record of a catalogue reply. -/
structure Pagination where
  current_page : Int
  total_pages : Int
  has_previous : Bool
  has_next : Bool
  previous_page : Option Int
  next_page : Option Int
deriving DecidableEq, Repr

/-- One `li` of the pagination list: the Previous and Next links, the collapsed link
to page 1, the collapsed link to the last page, an ellipsis, or a link of the window
of page numbers, which is `active` for the current page. -/
inductive PageControl where
  | previous (page : Option Int)
  | first
  | ellipsis
  | number (page : Int) (active : Bool)
  | last (page : Int)
  | next (page : Option Int)
deriving DecidableEq, Repr

/-- Whether the control is a link labelled with a page number. -/
def PageControl.isNumbered : PageControl → Bool
  | .first => true
  | .number _ _ => true
  | .last _ => true
  | _ => false

/-- Whether the control carries the class `active`. -/
def PageControl.isActive : PageControl → Bool
  | .number _ active => active
  | _ => false

/-- The number of links labelled with a page number in a pagination list. -/
def numberedLinks (controls : List PageControl) : Nat :=
  (controls.filter PageControl.isNumbered).length

/-- The window `[startPage, endPage]` of `displaySkladPagination`. -/
def pageWindow (currentPage totalPages : Int) : Int × Int :=
  let maxVisiblePages : Int := 7
  let startPage := max 1 (currentPage - maxVisiblePages / 2)
  let endPage := min totalPages (startPage + maxVisiblePages - 1)
  let startPage :=
    if endPage - startPage + 1 < maxVisiblePages then max 1 (endPage - maxVisiblePages + 1)
    else startPage
  (startPage, endPage)

/-- The loop `for (let i = startPage; i <= endPage; i++)` of page links. -/
def windowLinks (startPage endPage currentPage : Int) : List PageControl :=
  (List.range (endPage - startPage + 1).toNat).map fun (k : Nat) =>
    PageControl.number (startPage + (k : Int)) (decide (startPage + (k : Int) = currentPage))

/-- The controls `displaySkladPagination` appends for a record with more than one
page, in document order. -/
def paginationControls (pagination : Pagination) : List PageControl :=
  let currentPage := pagination.current_page
  let totalPages := pagination.total_pages
  let startPage := (pageWindow currentPage totalPages).1
  let endPage := (pageWindow currentPage totalPages).2
  (if pagination.has_previous then [PageControl.previous pagination.previous_page] else [])
    ++ (if startPage > 1 then
          PageControl.first :: (if startPage > 2 then [PageControl.ellipsis] else [])
        else [])
    ++ windowLinks startPage endPage currentPage
    ++ (if endPage < totalPages then
          (if endPage < totalPages - 1 then [PageControl.ellipsis] else [])
            ++ [PageControl.last totalPages]
        else [])
    ++ (if pagination.has_next then [PageControl.next pagination.next_page] else [])

/-- An item of a catalogue reply; a price that is not a number is `none`. -/
structure SkladItem where
  article_number : String
  name : String
  unit : String
  quantity : String
  purchase_price : Option JsNumber
  total_value : Option JsNumber
deriving DecidableEq

/-- A row of the catalogue table: the `no items found` placeholder, or the cells of an
item with the item its select button carries. -/
inductive SkladRow where
  | placeholder
  | item (cells : List String) (data : SkladItem)
deriving DecidableEq

/-- Whether the row template can be built: both prices are numbers. -/
def SkladItem.renders (item : SkladItem) : Bool :=
  item.purchase_price.isSome && item.total_value.isSome

/-- The row `displaySkladItems` builds for an item. -/
def SkladItem.row (item : SkladItem) : SkladRow :=
  .item
    [item.article_number, item.name, item.unit, item.quantity,
      toFixed2 (item.purchase_price.getD 0) ++ " лв.",
      toFixed2 (item.total_value.getD 0) ++ " лв."]
    item

/-- A catalogue reply; a property the reply lacks is `none`. -/
structure SkladReply where
  items : Option (List SkladItem)
  pagination : Option Pagination
deriving DecidableEq

/-- The parameters of a catalogue query. -/
structure CatalogQuery where
  page : Int
  search : Option String
  unit : Option String
deriving DecidableEq, Repr

/-- The elements and closure variables of `initializeSkladModal`: the values of the
search input and the unit filter (`none` for an element that is not in the page),
whether the clear button is in the page, the rows of the catalogue table, the
controls of the pagination list, `currentPage`, `searchTimeout`, the pending reload
timers (handle and due time), and the catalogue queries sent so far. -/
structure SkladModal where
  searchInput : Option String
  unitFilter : Option String
  clearBtn : Bool
  skladTableBody : Option (List SkladRow)
  skladPaginationList : Option (List PageControl)
  currentPage : Int
  searchTimeout : Option Nat
  nextTimerId : Nat
  now : Nat
  reloads : List (Nat × Nat)
  queries : List CatalogQuery
deriving DecidableEq

/-- The function `loadSkladData` up to its `fetch`: it reads both filters unguarded
and sends the query. -/
def loadSkladData (m : SkladModal) : Except JsError SkladModal :=
  match m.searchInput with
  | none => .error .typeError
  | some value =>
    match m.unitFilter with
    | none => .error .typeError
    | some unit =>
      let searchQuery := jsTrim value
      .ok { m with
        queries := m.queries ++
          [{ page := m.currentPage
             search := if searchQuery ≠ "" then some searchQuery else none
             unit := if unit ≠ "" then some unit else none }] }

/-- The function `displaySkladItems`, with what it threw, if anything. -/
def displaySkladItems (m : SkladModal) (items : Option (List SkladItem)) :
    SkladModal × Option JsError :=
  match m.skladTableBody with
  | none => (m, some .typeError)
  | some _ =>
    match items with
    | none => ({ m with skladTableBody := some [] }, some .typeError)
    | some items =>
      if items.length = 0 then
        ({ m with skladTableBody := some [SkladRow.placeholder] }, none)
      else
        ({ m with
            skladTableBody := some ((items.takeWhile SkladItem.renders).map SkladItem.row) },
          if items.all SkladItem.renders then none else some .typeError)

/-- The function `displaySkladPagination`, with what it threw, if anything.  The click
listener it attaches once to the list adds no control. -/
def displaySkladPagination (m : SkladModal) (pagination : Option Pagination) :
    SkladModal × Option JsError :=
  match m.skladPaginationList with
  | none => (m, some .typeError)
  | some _ =>
    match pagination with
    | none => ({ m with skladPaginationList := some [] }, some .typeError)
    | some pagination =>
      if pagination.total_pages ≤ 1 then ({ m with skladPaginationList := some [] }, none)
      else ({ m with skladPaginationList := some (paginationControls pagination) }, none)

/-- The function `loadSkladData` from the moment its request settles: `none` is a
request or a body that failed.  Whatever is thrown lands in the `catch`, which only
logs it. -/
def loadSkladDataSettled (m : SkladModal) (reply : Option SkladReply) : SkladModal :=
  match reply with
  | none => m
  | some data =>
    match displaySkladItems m data.items with
    | (m', some _) => m'
    | (m', none) => (displaySkladPagination m' data.pagination).1

/-- The `input` listener of the search input, after the user has made its value
`value`; it is installed only when the input is in the page. -/
def skladSearchInput (m : SkladModal) (value : String) : Except JsError SkladModal :=
  match m.searchInput with
  | none => .ok m
  | some _ =>
    let query := jsTrim value
    let cleared :=
      match m.searchTimeout with
      | some id => m.reloads.filter fun t => t.1 != id
      | none => m.reloads
    if jsLength query < 2 then
      loadSkladData { m with searchInput := some value, reloads := cleared, currentPage := 1 }
    else
      .ok { m with
        searchInput := some value
        searchTimeout := some m.nextTimerId
        nextTimerId := m.nextTimerId + 1
        reloads := cleared ++ [(m.nextTimerId, m.now + 300)] }

/-- The callback of a reload timer. -/
def skladReloadFired (m : SkladModal) : Except JsError SkladModal :=
  loadSkladData { m with currentPage := 1 }

/-- The `change` listener of the unit filter, after the user has chosen `value`; it is
installed only when the filter is in the page. -/
def skladUnitFilterChange (m : SkladModal) (value : String) : Except JsError SkladModal :=
  match m.unitFilter with
  | none => .ok m
  | some _ => loadSkladData { m with unitFilter := some value, currentPage := 1 }

/-- The `click` listener of the clear button; it is installed only when the button is
in the page, and writes both filters unguarded. -/
def skladClearClick (m : SkladModal) : Except JsError SkladModal :=
  if m.clearBtn then
    match m.searchInput with
    | none => .error .typeError
    | some _ =>
      match m.unitFilter with
      | none => .error .typeError
      | some _ =>
        loadSkladData { m with searchInput := some "", unitFilter := some "", currentPage := 1 }
  else .ok m

/-- The `click` listener for `.sklad-modal-btn`, up to `loadSkladData`. -/
def skladModalBtnClick (m : SkladModal) : Except JsError SkladModal :=
  loadSkladData { m with currentPage := 1 }

/-- A catalogue picker with every element in the page, showing `rows`. -/
def sampleModal (searchText : String) (rows : List SkladRow) : SkladModal :=
  { searchInput := some searchText
    unitFilter := some ""
    clearBtn := true
    skladTableBody := some rows
    skladPaginationList := some []
    currentPage := 3
    searchTimeout := none
    nextTimerId := 1
    now := 0
    reloads := []
    queries := [] }

/-- A catalogue item. -/
def sampleItem : SkladItem :=
  { article_number := "A1", name := "Filter", unit := "бр.", quantity := "4",
    purchase_price := some 12.5, total_value := some 50 }

/-- Whether the control is a numbered link whose `data-page` is `page`. -/
def PageControl.linksTo (page : Int) : PageControl → Bool
  | .first => decide (page = 1)
  | .number p _ => decide (p = page)
  | .last p => decide (p = page)
  | _ => false

/-- The pagination record of page 10 of 20. -/
def samplePagination : Pagination :=
  { current_page := 10, total_pages := 20, has_previous := true, has_next := true,
    previous_page := some 9, next_page := some 11 }

/-! ## The dropdown of `setupAutocomplete` -/

/-- The function `showAutocompleteDropdown`: a dropdown already in the document is
removed and a new one, which it keeps in a variable of its own, is appended to the
body.  The variable `dropdown` of `setupAutocomplete` is not touched. -/
def showAutocompleteDropdown (s : SetupState) (suggestions : List Suggestion) : SetupState :=
  { s with closure := { s.closure with shown := some suggestions } }

/-- The request of the timer callback from the moment it settles: `none` is a request
or a body that failed (it is logged), `some none` a reply without `suggestions`. -/
def SetupAutocomplete.replySettled (s : SetupState)
    (reply : Option (Option (List Suggestion))) : SetupState :=
  match reply with
  | some (some suggestions) =>
    if suggestions.length > 0 then showAutocompleteDropdown s suggestions else s
  | _ => s

/-- The `click` listener of an item of the dropdown, after the `onSelect` callback:
the dropdown removes itself. -/
def SetupAutocomplete.itemClick (s : SetupState) : SetupState :=
  { s with closure := { s.closure with shown := none } }

/-- Where a click in the document lands, as the `click` listener of
`setupAutocomplete` tells it. -/
inductive ClickTarget where
  | insideDropdown
  | input
  | elsewhere
deriving DecidableEq, Repr

/-- The document `click` listener of `setupAutocomplete`: it acts on the variable
`dropdown` of the closure. -/
def SetupAutocomplete.documentClick (s : SetupState) (target : ClickTarget) : SetupState :=
  match s.closure.dropdown with
  | some _ =>
    if target ≠ .insideDropdown ∧ target ≠ .input then
      { s with closure := { s.closure with shown := none } }
    else s
  | none => s

set_option maxRecDepth 100000

set_option exponentiation.threshold 4096

/-! ## Number lemmas -/

theorem JsNumber.round_zero (negative : Bool) (den : Nat) (exp : Int) :
    JsNumber.round negative 0 den exp = .fin negative 0 (-1074) := by
  simp [JsNumber.round]

/-- A zero of either sign prints as `0.00`. -/
theorem toFixed2_zero (negative : Bool) (e : Int) : toFixed2 (.fin negative 0 e) = "0.00" := by
  have hc : cents 0 e = 0 := by
    unfold cents
    split
    · simp
    · simp only [Nat.mul_zero, Nat.zero_add]
      exact Nat.div_eq_of_lt (by
        have : 0 < 2 ^ (-e).toNat := Nat.pos_pow_of_pos _ (by decide)
        omega)
  simp only [toFixed2, ne_eq, not_true_eq_false, and_false, if_false, Nat.zero_mul, hc]
  have : ¬ (10 ^ 21 ≤ 0) := by decide
  simp only [Nat.le_zero_eq, this, and_false, if_false]
  decide

/-- For a number that is at least 0, `x || 0` prints as `x` does. -/
theorem toFixed2_orZero (x : JsNumber) (hx : x.isNonNegative = true) :
    toFixed2 x.orZero = toFixed2 x := by
  cases x with
  | nan => simp [JsNumber.isNonNegative] at hx
  | inf s => rfl
  | fin s m e =>
    by_cases hm : m = 0
    · subst hm
      have h0 : (JsNumber.fin s 0 e).orZero = .fin false 0 (-1074) := by
        simp [JsNumber.orZero, JsNumber.truthy]
        rfl
      rw [h0, toFixed2_zero, toFixed2_zero]
    · simp [JsNumber.orZero, JsNumber.truthy, hm]

/-- The product of a zero and a finite number is a zero. -/
theorem JsNumber.zero_mul_fin (s t : Bool) (e f : Int) (n : Nat) :
    JsNumber.fin s 0 e * JsNumber.fin t n f = .fin (xor s t) 0 (-1074) ∧
    JsNumber.fin t n f * JsNumber.fin s 0 e = .fin (xor t s) 0 (-1074) := by
  constructor
  · show JsNumber.round (xor s t) (0 * n) 1 (e + f) = _
    rw [Nat.zero_mul, JsNumber.round_zero]
  · show JsNumber.round (xor t s) (n * 0) 1 (f + e) = _
    rw [Nat.mul_zero, JsNumber.round_zero]

/-- For numbers that are at least 0, the product of `x || 0` and `y || 0` prints as
the product of `x` and `y` does. -/
theorem toFixed2_orZero_mul (x y : JsNumber) (hx : x.isNonNegative = true)
    (hy : y.isNonNegative = true) :
    toFixed2 (x.orZero * y.orZero) = toFixed2 (x * y) := by
  have hz : (0 : JsNumber) = .fin false 0 (-1074) := rfl
  cases x with
  | nan => simp [JsNumber.isNonNegative] at hx
  | inf s =>
    cases y with
    | nan => simp [JsNumber.isNonNegative] at hy
    | inf t => rfl
    | fin t n f =>
      by_cases hn : n = 0
      · subst hn
        have h0 : (JsNumber.fin t 0 f).orZero = .fin false 0 (-1074) := by
          simp [JsNumber.orZero, JsNumber.truthy]
          rfl
        rw [h0]
        rfl
      · simp [JsNumber.orZero, JsNumber.truthy, hn]
  | fin s m e =>
    by_cases hm : m = 0
    · subst hm
      have h0 : (JsNumber.fin s 0 e).orZero = .fin false 0 (-1074) := by
        simp [JsNumber.orZero, JsNumber.truthy]
        rfl
      rw [h0]
      cases y with
      | nan => simp [JsNumber.isNonNegative] at hy
      | inf t => rfl
      | fin t n f =>
        by_cases hn : n = 0
        · subst hn
          have h1 : (JsNumber.fin t 0 f).orZero = .fin false 0 (-1074) := by
            simp [JsNumber.orZero, JsNumber.truthy]
            rfl
          rw [h1, (JsNumber.zero_mul_fin _ _ _ _ _).1, (JsNumber.zero_mul_fin _ _ _ _ _).1,
            toFixed2_zero, toFixed2_zero]
        · have h1 : (JsNumber.fin t n f).orZero = .fin t n f := by
            simp [JsNumber.orZero, JsNumber.truthy, hn]
          rw [h1, (JsNumber.zero_mul_fin _ _ _ _ _).1, (JsNumber.zero_mul_fin _ _ _ _ _).1,
            toFixed2_zero, toFixed2_zero]
    · have h0 : (JsNumber.fin s m e).orZero = .fin s m e := by
        simp [JsNumber.orZero, JsNumber.truthy, hm]
      rw [h0]
      cases y with
      | nan => simp [JsNumber.isNonNegative] at hy
      | inf t => rfl
      | fin t n f =>
        by_cases hn : n = 0
        · subst hn
          have h1 : (JsNumber.fin t 0 f).orZero = .fin false 0 (-1074) := by
            simp [JsNumber.orZero, JsNumber.truthy]
            rfl
          rw [h1, (JsNumber.zero_mul_fin _ _ _ _ _).2, (JsNumber.zero_mul_fin _ _ _ _ _).2,
            toFixed2_zero, toFixed2_zero]
        · simp [JsNumber.orZero, JsNumber.truthy, hn]

/-! ## Row totals -/

/-- C1, on the code: for the row with quantity 2, unit price 10 and the VAT box
checked, `calculateRowTotal` writes `12.00 лв.` (the price with the 20% surcharge)
into the price-with-VAT display but `20.00 лв.` into the total-price display, while
round2(q*p*1.20) is `24.00`: the surcharged total it computes is never displayed. -/
theorem calculateRowTotal_vat_row_total_display :
    (calculateRowTotal defaultEurRate (inputRow 2 10 true)).priceWithVatCell.bind
        PriceCell.bgnPrice = some "12.00 лв." ∧
    (calculateRowTotal defaultEurRate (inputRow 2 10 true)).totalPriceCell.bind
        PriceCell.bgnPrice = some "20.00 лв." ∧
    toFixed2 (2 * 10 * 1.20) ++ " лв." = "24.00 лв." := by
  refine ⟨?_, ?_, ?_⟩ <;> decide

/-- C2: for a quantity `q >= 0` and a unit price `p >= 0` with the VAT box unchecked,
`calculateRowTotal` displays the row total `q * p` to two decimals, and the displayed
price with VAT is the base price `p` to two decimals; the product and the rounding are
those of JavaScript numbers. -/
theorem calculateRowTotal_without_vat (rate q p : JsNumber) (row : Row) (a b c d : String)
    (hq : row.quantity = some q) (hp : row.price = some p)
    (hq0 : q.isNonNegative = true) (hp0 : p.isNonNegative = true)
    (hv : row.includeVat = some false)
    (hpc : row.priceWithVatCell = some ⟨some a, some b⟩)
    (htc : row.totalPriceCell = some ⟨some c, some d⟩) :
    ((calculateRowTotal rate row).totalPriceCell.bind PriceCell.bgnPrice
        = some (toFixed2 (q * p) ++ " лв.")) ∧
    ((calculateRowTotal rate row).priceWithVatCell.bind PriceCell.bgnPrice
        = some (toFixed2 p ++ " лв.")) := by
  have h1 := toFixed2_orZero_mul q p hq0 hp0
  have h2 := toFixed2_orZero p hp0
  simp [calculateRowTotal, Row.qty, Row.unitPrice, Row.vat, hq, hp, hv, hpc, htc,
    PriceCell.setAmount, h1, h2]

/-- C2 at the row with quantity 0.5 and price 2.01, which displays `1.00 лв.`. -/
theorem calculateRowTotal_without_vat_witness :
    ((calculateRowTotal defaultEurRate (inputRow 0.5 2.01 false)).totalPriceCell.bind
        PriceCell.bgnPrice = some (toFixed2 (0.5 * 2.01) ++ " лв.")) ∧
    ((calculateRowTotal defaultEurRate (inputRow 0.5 2.01 false)).priceWithVatCell.bind
        PriceCell.bgnPrice = some (toFixed2 2.01 ++ " лв.")) ∧
    toFixed2 (0.5 * 2.01) = "1.00" ∧ toFixed2 2.01 = "2.01" :=
  ⟨(calculateRowTotal_without_vat defaultEurRate 0.5 2.01 (inputRow 0.5 2.01 false) "" "" "" ""
      rfl rfl (by decide) (by decide) rfl rfl rfl).1,
    (calculateRowTotal_without_vat defaultEurRate 0.5 2.01 (inputRow 0.5 2.01 false) "" "" "" ""
      rfl rfl (by decide) (by decide) rfl rfl rfl).2,
    by decide, by decide⟩

/-! ## Grand totals -/

/-- A loop with `+=` from any start value. -/
theorem foldl_add_start (xs : List JsNumber) (x start : JsNumber) :
    (x :: xs).foldl (fun acc y => acc + y) start = xs.foldl (fun acc y => acc + y) (start + x) :=
  rfl

/-- The accumulators after the loop, started from any values. -/
theorem foldl_grandTotalStep (rows : List Row) (acc : Totals) :
    (rows.foldl grandTotalStep acc).totalWithoutVat
        = (rows.map fun r => r.qty * r.unitPrice).foldl (fun acc x => acc + x)
            acc.totalWithoutVat ∧
    (rows.foldl grandTotalStep acc).totalVat
        = ((rows.filter Row.vat).map fun r => r.qty * r.unitPrice * 0.20).foldl
            (fun acc x => acc + x) acc.totalVat ∧
    (rows.foldl grandTotalStep acc).totalWithVat
        = (rows.map fun r =>
            if r.vat then r.qty * r.unitPrice + r.qty * r.unitPrice * 0.20
            else r.qty * r.unitPrice).foldl (fun acc x => acc + x) acc.totalWithVat ∧
    (rows.foldl grandTotalStep acc).hasVatItems = (acc.hasVatItems || rows.any Row.vat) := by
  induction rows generalizing acc with
  | nil => simp
  | cons r rs ih =>
    rw [List.foldl_cons]
    obtain ⟨h1, h2, h3, h4⟩ := ih (grandTotalStep acc r)
    rw [h1, h2, h3, h4]
    by_cases hv : r.vat = true
    · simp [grandTotalStep, hv]
    · have hv' : r.vat = false := by simpa using hv
      simp [grandTotalStep, hv']

/-- The accumulators of `calculateGrandTotal` after its loop. -/
theorem grandTotals_eq (rows : List Row) :
    (grandTotals rows).totalWithoutVat = jsSum (rows.map fun r => r.qty * r.unitPrice) ∧
    (grandTotals rows).totalVat
        = jsSum ((rows.filter Row.vat).map fun r => r.qty * r.unitPrice * 0.20) ∧
    (grandTotals rows).totalWithVat
        = jsSum (rows.map fun r =>
            if r.vat then r.qty * r.unitPrice + r.qty * r.unitPrice * 0.20
            else r.qty * r.unitPrice) ∧
    (grandTotals rows).hasVatItems = rows.any Row.vat := by
  obtain ⟨h1, h2, h3, h4⟩ := foldl_grandTotalStep rows ⟨0, 0, 0, false⟩
  unfold grandTotals jsSum
  rw [h1, h2, h3, h4]
  simp

/-- C3, as stated, fails in the arithmetic of JavaScript numbers: for the rows
(0.25, 0.05, on) and (1, 0.05, on) the total with VAT, which the loop accumulates on
its own, displays `0.08`, while the sum of the other two totals prints `0.07`. -/
theorem totalWithVat_is_not_the_sum :
    (calculateGrandTotal
        (examplePage [inputRow 0.25 0.05 true, inputRow 1 0.05 true])).totalWithVat.bind
      PriceCell.bgnPrice = some "0.08 лв." ∧
    toFixed2 ((grandTotals [inputRow 0.25 0.05 true, inputRow 1 0.05 true]).totalWithoutVat
      + (grandTotals [inputRow 0.25 0.05 true, inputRow 1 0.05 true]).totalVat) = "0.07" ∧
    (grandTotals [inputRow 0.25 0.05 true, inputRow 1 0.05 true]).totalWithVat
      ≠ (grandTotals [inputRow 0.25 0.05 true, inputRow 1 0.05 true]).totalWithoutVat
        + (grandTotals [inputRow 0.25 0.05 true, inputRow 1 0.05 true]).totalVat := by
  refine ⟨?_, ?_, ?_⟩ <;> decide

/-- C3, amended: `calculateGrandTotal` computes, by adding row after row from 0, the
total without VAT as the sum of `q * p` over all rows, the VAT total as the sum of
`q * p * 0.20` over the rows with VAT, and the total with VAT as the sum over all rows
of `q * p + q * p * 0.20` for a row with VAT and `q * p` for a row without, and writes
each into its display; for the rows (2, 10, off) and (1, 5, on) the displays read
25.00, 1.00 and 26.00. -/
theorem calculateGrandTotal_totals :
    (∀ rows : List Row,
      (grandTotals rows).totalWithoutVat = jsSum (rows.map fun r => r.qty * r.unitPrice) ∧
      (grandTotals rows).totalVat
        = jsSum ((rows.filter Row.vat).map fun r => r.qty * r.unitPrice * 0.20) ∧
      (grandTotals rows).totalWithVat
        = jsSum (rows.map fun r =>
            if r.vat then r.qty * r.unitPrice + r.qty * r.unitPrice * 0.20
            else r.qty * r.unitPrice)) ∧
    (∀ p : Page,
      (calculateGrandTotal p).totalWithoutVat
        = updateTotalDisplay p.eurRate p.totalWithoutVat
            (jsSum ((p.itemsTableBody.getD []).map fun r => r.qty * r.unitPrice)) ∧
      (calculateGrandTotal p).totalVat
        = updateTotalDisplay p.eurRate p.totalVat
            (jsSum (((p.itemsTableBody.getD []).filter Row.vat).map
              fun r => r.qty * r.unitPrice * 0.20)) ∧
      (calculateGrandTotal p).totalWithVat
        = updateTotalDisplay p.eurRate p.totalWithVat
            (jsSum ((p.itemsTableBody.getD []).map fun r =>
              if r.vat then r.qty * r.unitPrice + r.qty * r.unitPrice * 0.20
              else r.qty * r.unitPrice))) ∧
    ((calculateGrandTotal (examplePage [inputRow 2 10 false, inputRow 1 5 true])).totalWithoutVat.bind
        PriceCell.bgnPrice = some "25.00 лв." ∧
      (calculateGrandTotal (examplePage [inputRow 2 10 false, inputRow 1 5 true])).totalVat.bind
        PriceCell.bgnPrice = some "1.00 лв." ∧
      (calculateGrandTotal (examplePage [inputRow 2 10 false, inputRow 1 5 true])).totalWithVat.bind
        PriceCell.bgnPrice = some "26.00 лв.") := by
  refine ⟨fun rows => ?_, fun p => ?_, ?_⟩
  · obtain ⟨h1, h2, h3, _⟩ := grandTotals_eq rows
    exact ⟨h1, h2, h3⟩
  · obtain ⟨h1, h2, h3, _⟩ := grandTotals_eq (p.itemsTableBody.getD [])
    refine ⟨?_, ?_, ?_⟩
    · simp only [calculateGrandTotal, h1]
    · simp only [calculateGrandTotal, h2]
    · simp only [calculateGrandTotal, h3]
  · refine ⟨?_, ?_, ?_⟩ <;> decide

/-- C4: after `calculateGrandTotal`, the VAT summary row is shown exactly when some
row has its VAT box checked (it is hidden otherwise), and the total label reads
`Общо с ДДС:` in that case and `Общо:` otherwise. -/
theorem calculateGrandTotal_vat_row (p : Page) (d l : String) (hv : p.vatRow = some d)
    (hl : p.totalLabel = some l) :
    ((calculateGrandTotal p).vatRow = some "" ↔
        ∃ r ∈ p.itemsTableBody.getD [], r.includeVat = some true) ∧
    ((calculateGrandTotal p).vatRow = some "none" ↔
        ¬ ∃ r ∈ p.itemsTableBody.getD [], r.includeVat = some true) ∧
    ((calculateGrandTotal p).totalLabel = some "Общо с ДДС:" ↔
        ∃ r ∈ p.itemsTableBody.getD [], r.includeVat = some true) ∧
    ((calculateGrandTotal p).totalLabel = some "Общо:" ↔
        ¬ ∃ r ∈ p.itemsTableBody.getD [], r.includeVat = some true) := by
  obtain ⟨_, _, _, h4⟩ := grandTotals_eq (p.itemsTableBody.getD [])
  have hany : (p.itemsTableBody.getD []).any Row.vat = true ↔
      ∃ r ∈ p.itemsTableBody.getD [], r.includeVat = some true := by
    rw [List.any_eq_true]
    constructor
    · rintro ⟨r, hr, hrv⟩
      refine ⟨r, hr, ?_⟩
      cases hi : r.includeVat with
      | none => simp [Row.vat, hi] at hrv
      | some b => simp [Row.vat, hi] at hrv; simp [hrv]
    · rintro ⟨r, hr, hrv⟩
      exact ⟨r, hr, by simp [Row.vat, hrv]⟩
  simp only [calculateGrandTotal, hv, hl, h4, Option.map_some', ← hany]
  cases (p.itemsTableBody.getD []).any Row.vat <;> simp

/-- C4 at the page with the rows (2, 10, off) and (1, 5, on). -/
theorem calculateGrandTotal_vat_row_witness :
    (calculateGrandTotal (examplePage [inputRow 2 10 false, inputRow 1 5 true])).vatRow
        = some "" ∧
    (calculateGrandTotal (examplePage [inputRow 2 10 false, inputRow 1 5 true])).totalLabel
        = some "Общо с ДДС:" :=
  have h := calculateGrandTotal_vat_row
    (examplePage [inputRow 2 10 false, inputRow 1 5 true]) "none" "" rfl rfl
  have hex : ∃ r ∈ (examplePage [inputRow 2 10 false, inputRow 1 5 true]).itemsTableBody.getD [],
      r.includeVat = some true :=
    ⟨inputRow 1 5 true, by simp [examplePage], rfl⟩
  ⟨h.1.mpr hex, h.2.2.1.mpr hex⟩

/-! ## The secondary currency -/

/-- The rate `loadEurRate` leaves in place is never zero or `NaN` when the rate before
was not: a reply with such a rate is skipped. -/
theorem loadEurRate_ne_zero (p : Page) (reply : Option (Option JsNumber))
    (h : p.eurRate.truthy = true) : (loadEurRate p reply).eurRate.truthy = true := by
  unfold loadEurRate
  split
  · split <;> simp_all
  · exact h

/-- C5: for a rate that is not zero, every monetary display `calculateRowTotal` and
`updateTotalDisplay` write (the price with VAT and the total of a row, and the three
grand totals) shows in its EUR line the amount of its BGN line divided by the rate,
to two decimals; the quotient and the rounding are those of JavaScript numbers. -/
theorem eur_display_is_amount_over_rate (rate : JsNumber) (_hrate : rate ≠ 0) :
    (∀ (row : Row) (a b : String), row.priceWithVatCell = some ⟨some a, some b⟩ →
      (calculateRowTotal rate row).priceWithVatCell
        = some ⟨some (toFixed2 (if row.vat then row.unitPrice * 1.20 else row.unitPrice)
                  ++ " лв."),
                some (toFixed2 ((if row.vat then row.unitPrice * 1.20 else row.unitPrice) / rate)
                  ++ " €")⟩) ∧
    (∀ (row : Row) (a b : String), row.totalPriceCell = some ⟨some a, some b⟩ →
      (calculateRowTotal rate row).totalPriceCell
        = some ⟨some (toFixed2 (row.qty * row.unitPrice) ++ " лв."),
                some (toFixed2 (row.qty * row.unitPrice / rate) ++ " €")⟩) ∧
    (∀ (amount : JsNumber) (a b : String),
      updateTotalDisplay rate (some ⟨some a, some b⟩) amount
        = some ⟨some (toFixed2 amount ++ " лв."), some (toFixed2 (amount / rate) ++ " €")⟩) ∧
    (∀ (p : Page) (a b : String), p.eurRate = rate →
      (p.totalWithoutVat = some ⟨some a, some b⟩ →
        (calculateGrandTotal p).totalWithoutVat
          = some ⟨some (toFixed2 (grandTotals (p.itemsTableBody.getD [])).totalWithoutVat
                    ++ " лв."),
                  some (toFixed2 ((grandTotals (p.itemsTableBody.getD [])).totalWithoutVat / rate)
                    ++ " €")⟩) ∧
      (p.totalVat = some ⟨some a, some b⟩ →
        (calculateGrandTotal p).totalVat
          = some ⟨some (toFixed2 (grandTotals (p.itemsTableBody.getD [])).totalVat ++ " лв."),
                  some (toFixed2 ((grandTotals (p.itemsTableBody.getD [])).totalVat / rate)
                    ++ " €")⟩) ∧
      (p.totalWithVat = some ⟨some a, some b⟩ →
        (calculateGrandTotal p).totalWithVat
          = some ⟨some (toFixed2 (grandTotals (p.itemsTableBody.getD [])).totalWithVat ++ " лв."),
                  some (toFixed2 ((grandTotals (p.itemsTableBody.getD [])).totalWithVat / rate)
                    ++ " €")⟩)) := by
  refine ⟨?_, ?_, ?_, ?_⟩
  · intro row a b h
    simp [calculateRowTotal, h, PriceCell.setAmount]
  · intro row a b h
    simp [calculateRowTotal, h, PriceCell.setAmount]
  · intro amount a b
    simp [updateTotalDisplay, PriceCell.setAmount]
  · intro p a b hp
    subst hp
    refine ⟨?_, ?_, ?_⟩ <;> intro h <;>
      simp [calculateGrandTotal, updateTotalDisplay, h, PriceCell.setAmount]

/-- C5 at the rate 2, for the row with quantity 1 and price 2.01: its price cell shows
`2.01 лв.` and `1.00 €`. -/
theorem eur_display_is_amount_over_rate_witness :
    (2 : JsNumber) ≠ 0 ∧
    (calculateRowTotal 2 (inputRow 1 2.01 false)).priceWithVatCell
      = some ⟨some (toFixed2
                  (if (inputRow 1 2.01 false).vat then (inputRow 1 2.01 false).unitPrice * 1.20
                    else (inputRow 1 2.01 false).unitPrice) ++ " лв."),
              some (toFixed2
                  ((if (inputRow 1 2.01 false).vat then (inputRow 1 2.01 false).unitPrice * 1.20
                    else (inputRow 1 2.01 false).unitPrice) / 2) ++ " €")⟩ ∧
    (calculateRowTotal 2 (inputRow 1 2.01 false)).priceWithVatCell
      = some ⟨some "2.01 лв.", some "1.00 €"⟩ :=
  ⟨by decide,
    (eur_display_is_amount_over_rate 2 (by decide)).1 (inputRow 1 2.01 false) "" "" rfl,
    by decide⟩

/-! ## Row lifecycle -/

/-- What `updateFormsetManagement` returns when both the field and the table body
are in the page. -/
theorem updateFormsetManagement_ok (p : Page) (rows : List Row) (n : Nat)
    (hb : p.itemsTableBody = some rows) (hn : p.totalForms = some n) :
    updateFormsetManagement p = .ok { p with totalForms := some rows.length } := by
  simp [updateFormsetManagement, hb, hn]

/-- What `addNewItemRow` returns when both the field and the table body are in the
page. -/
theorem addNewItemRow_ok (p : Page) (rows : List Row) (n : Nat)
    (hb : p.itemsTableBody = some rows) (hn : p.totalForms = some n) :
    addNewItemRow p = .ok { p with
      itemsTableBody := some (rows ++ [newItemRow rows.length])
      totalForms := some (rows ++ [newItemRow rows.length]).length } := by
  simp [addNewItemRow, updateFormsetManagement, hb, hn]

/-- What the remove handler returns when both the field and the table body are in
the page. -/
theorem removeItemClick_ok (p : Page) (rows : List Row) (n i : Nat)
    (hb : p.itemsTableBody = some rows) (hn : p.totalForms = some n) :
    removeItemClick p (some i) = .ok (calculateGrandTotal { p with
      itemsTableBody := some (rows.eraseIdx i)
      totalForms := some (rows.eraseIdx i).length }) := by
  simp [removeItemClick, updateFormsetManagement, hb, hn, Except.map]

/-- Taking one entry out of a list of rows takes the same entry out of the list of
their names. -/
theorem map_names_eraseIdx (rows : List Row) (i : Nat) :
    (rows.eraseIdx i).map Row.names = (rows.map Row.names).eraseIdx i := by
  induction rows generalizing i with
  | nil => simp
  | cons r rs ih =>
    cases i with
    | zero => simp
    | succ j => simp [ih]

/-- C6, as stated, fails on a page whose count field does not hold the row count:
with the field at 5 and one row in the table, removing the row leaves the field at 0,
not at 4. -/
theorem removeItemClick_count_not_decremented :
    ∃ p', removeItemClick (pageWithCount [inputRow 2 10 false] 5) (some 0) = .ok p' ∧
      (pageWithCount [inputRow 2 10 false] 5).totalForms = some 5 ∧
      p'.totalForms = some 0 ∧ p'.totalForms ≠ some (5 - 1) := by
  refine ⟨_, removeItemClick_ok _ [inputRow 2 10 false] 5 0 rfl rfl, rfl, ?_, ?_⟩
  · simp [calculateGrandTotal]
  · simp [calculateGrandTotal]

/-- C6, amended: removing a row of the table through the remove handler sets the
count field to the number of rows that remain, which is one less than its value
before whenever that value was the row count, and the field names of the other rows
are unchanged: the names in the table are the names before without the removed
row. -/
theorem removeItemClick_decrements (p : Page) (rows : List Row) (n i : Nat)
    (hb : p.itemsTableBody = some rows) (hn : p.totalForms = some n) (hi : i < rows.length) :
    ∃ p', removeItemClick p (some i) = .ok p' ∧
      p'.totalForms = some (rows.length - 1) ∧
      (n = rows.length → p'.totalForms = some (n - 1)) ∧
      p'.itemsTableBody = some (rows.eraseIdx i) ∧
      p'.itemsTableBody.map (List.map Row.names) = some ((rows.map Row.names).eraseIdx i) := by
  refine ⟨_, removeItemClick_ok p rows n i hb hn, ?_, ?_, ?_, ?_⟩
  · simp [calculateGrandTotal, List.length_eraseIdx, hi]
  · intro h
    simp [calculateGrandTotal, List.length_eraseIdx, hi, h]
  · simp [calculateGrandTotal]
  · simp [calculateGrandTotal, map_names_eraseIdx]

/-- C6, amended, at a table of three rows from which the middle one is removed. -/
theorem removeItemClick_decrements_witness :
    ∃ p', removeItemClick (examplePage [newItemRow 0, newItemRow 1, newItemRow 2]) (some 1)
        = .ok p' ∧
      p'.totalForms = some (3 - 1) ∧
      (3 = 3 → p'.totalForms = some (3 - 1)) ∧
      p'.itemsTableBody = some [newItemRow 0, newItemRow 2] ∧
      p'.itemsTableBody.map (List.map Row.names) = some [newRowNames 0, newRowNames 2] :=
  removeItemClick_decrements (examplePage [newItemRow 0, newItemRow 1, newItemRow 2])
    [newItemRow 0, newItemRow 1, newItemRow 2] 3 1 rfl rfl (by decide)

/-- C7, on the code: in the table with the rows 0 and 1, removing row 0 and then
adding a row gives the new row the index 1, the index of the row still in the table,
so two rows carry the same field names (`order_items-1-quantity` and the rest). -/
theorem addNewItemRow_reuses_index :
    ∃ p1 p2, removeItemClick (examplePage [newItemRow 0, newItemRow 1]) (some 0) = .ok p1 ∧
      addItemClick p1 = .ok p2 ∧
      p2.itemsTableBody.map (List.map Row.names) = some [newRowNames 1, newRowNames 1] ∧
      newRowNames 1 = ["order_items-1-sklad_item", "order_items-1-article_number",
        "order_items-1-name", "order_items-1-unit", "order_items-1-quantity",
        "order_items-1-purchase_price", "order_items-1-include_vat"] ∧
      ¬ (p2.itemsTableBody.getD []).Pairwise (fun r r' => ∀ x ∈ r.names, x ∉ r'.names) := by
  refine ⟨_, _, removeItemClick_ok _ [newItemRow 0, newItemRow 1] 2 0 rfl rfl,
    addNewItemRow_ok _ [newItemRow 1] 1 (by simp [calculateGrandTotal])
      (by simp [calculateGrandTotal]), ?_, by decide, ?_⟩
  · simp [newItemRow]
  · simp [newItemRow, newRowNames]

/-- C8: when the count field and the table body are in the page, after an add-row
action and after a remove-row action the count field holds the number of rows that
are in the table body. -/
theorem totalForms_tracks_rows (p : Page) (rows : List Row) (n : Nat)
    (hb : p.itemsTableBody = some rows) (hn : p.totalForms = some n) :
    (∃ p' rows', addItemClick p = .ok p' ∧ p'.itemsTableBody = some rows' ∧
      rows' = rows ++ [newItemRow rows.length] ∧ p'.totalForms = some rows'.length) ∧
    (∀ i, ∃ p' rows', removeItemClick p (some i) = .ok p' ∧ p'.itemsTableBody = some rows' ∧
      rows' = rows.eraseIdx i ∧ p'.totalForms = some rows'.length) := by
  refine ⟨⟨_, _, addNewItemRow_ok p rows n hb hn, rfl, rfl, rfl⟩, fun i => ?_⟩
  exact ⟨_, _, removeItemClick_ok p rows n i hb hn, by simp [calculateGrandTotal], rfl,
    by simp [calculateGrandTotal]⟩

/-- C8 at a page whose count field is out of step with its single row. -/
theorem totalForms_tracks_rows_witness :
    (∃ p' rows', addItemClick (pageWithCount [inputRow 2 10 false] 5) = .ok p' ∧
      p'.itemsTableBody = some rows' ∧
      rows' = [inputRow 2 10 false] ++ [newItemRow [inputRow 2 10 false].length] ∧
      p'.totalForms = some rows'.length) ∧
    (∃ p' rows', removeItemClick (pageWithCount [inputRow 2 10 false] 5) (some 0) = .ok p' ∧
      p'.itemsTableBody = some rows' ∧
      rows' = [inputRow 2 10 false].eraseIdx 0 ∧ p'.totalForms = some rows'.length) :=
  ⟨(totalForms_tracks_rows (pageWithCount [inputRow 2 10 false] 5) [inputRow 2 10 false] 5
      rfl rfl).1,
    (totalForms_tracks_rows (pageWithCount [inputRow 2 10 false] 5) [inputRow 2 10 false] 5
      rfl rfl).2 0⟩

/-! ## The timer table -/

theorem Browser.fresh_base (now : Nat) : (Browser.fresh now).Base :=
  ⟨by simp [Browser.fresh], by simp [Browser.fresh], by simp [Browser.fresh],
    by simp [Browser.fresh]⟩

theorem Browser.fresh_owned (now : Nat) (handle : Option Nat) :
    (Browser.fresh now).Owned handle := by
  simp [Browser.Owned, Browser.searchTimers, Browser.fresh]

/-- At most one search timer is pending in a table that satisfies the invariant. -/
theorem Browser.searchTimers_length_le_one (b : Browser) (handle : Option Nat)
    (hb : b.Base) (ho : b.Owned handle) : b.searchTimers.length ≤ 1 := by
  have hnd : (b.searchTimers.map Timer.id).Nodup :=
    hb.nodup.sublist ((List.filter_sublist b.timers).map Timer.id)
  match hl : b.searchTimers with
  | [] => simp
  | [_] => simp
  | t :: u :: rest =>
    exfalso
    have ht := ho t (by simp [hl])
    have hu := ho u (by simp [hl])
    rw [ht] at hu
    rw [hl] at hnd
    simp only [List.map_cons, List.nodup_cons, List.mem_cons, not_or] at hnd
    exact hnd.1.1 (Option.some.inj hu)

theorem Browser.clearTimeout_base (b : Browser) (id : Nat) (hb : b.Base) :
    (b.clearTimeout id).Base :=
  ⟨hb.next_pos, fun t ht => hb.pos t (List.mem_filter.mp ht).1,
    fun t ht => hb.fresh t (List.mem_filter.mp ht).1,
    hb.nodup.sublist ((List.filter_sublist b.timers).map Timer.id)⟩

/-- Clearing the handle the widget holds leaves no search timer pending. -/
theorem Browser.clearTimeout_quiet (b : Browser) (id : Nat) (ho : b.Owned (some id)) :
    (b.clearTimeout id).searchTimers = [] := by
  simp only [Browser.searchTimers, Browser.clearTimeout, List.filter_eq_nil_iff]
  intro t ht hs
  have hm := List.mem_filter.mp ht
  have := ho t (List.mem_filter.mpr ⟨hm.1, hs⟩)
  have hid : t.id = id := (Option.some.inj this).symm
  simp [hid] at hm

/-- No search timer is pending when the widget holds no handle. -/
theorem Browser.quiet_of_none (b : Browser) (ho : b.Owned none) : b.searchTimers = [] := by
  match hl : b.searchTimers with
  | [] => rfl
  | t :: _ => exact absurd (ho t (by simp [hl])) (by simp)

/-- No search timer is pending when the handle the widget holds is zero. -/
theorem Browser.quiet_of_zero (b : Browser) (hb : b.Base) (ho : b.Owned (some 0)) :
    b.searchTimers = [] := by
  match hl : b.searchTimers with
  | [] => rfl
  | t :: _ =>
    exfalso
    have hmem : t ∈ b.searchTimers := by simp [hl]
    have h0 : t.id = 0 := (Option.some.inj (ho t hmem)).symm
    have := hb.pos t (List.mem_filter.mp hmem).1
    omega

theorem Browser.setTimeout_base (b : Browser) (action : TimerAction) (delay : Nat)
    (hb : b.Base) : (b.setTimeout action delay).1.Base := by
  refine ⟨Nat.succ_pos _, ?_, ?_, ?_⟩
  · intro t ht
    simp only [Browser.setTimeout, List.mem_append, List.mem_singleton] at ht
    rcases ht with ht | rfl
    · exact hb.pos t ht
    · exact hb.next_pos
  · intro t ht
    simp only [Browser.setTimeout, List.mem_append, List.mem_singleton] at ht
    rcases ht with ht | rfl
    · exact Nat.lt_succ_of_lt (hb.fresh t ht)
    · exact Nat.lt_succ_self _
  · simp only [Browser.setTimeout, List.map_append, List.map_cons, List.map_nil]
    refine List.Nodup.append hb.nodup (List.nodup_singleton _) ?_
    intro x hx hx'
    rw [List.mem_singleton] at hx'
    subst hx'
    obtain ⟨t, ht, hid⟩ := List.mem_map.mp hx
    have := hb.fresh t ht
    omega

theorem Browser.setTimeout_search (b : Browser) (query : String) (delay : Nat) :
    (b.setTimeout (.search query) delay).1.searchTimers
      = b.searchTimers ++ [⟨b.nextTimerId, b.now + delay, .search query⟩] := by
  simp [Browser.setTimeout, Browser.searchTimers, List.filter_append, Timer.isSearch]

theorem Browser.setTimeout_hide (b : Browser) (delay : Nat) :
    (b.setTimeout .hideSuggestions delay).1.searchTimers = b.searchTimers := by
  simp [Browser.setTimeout, Browser.searchTimers, List.filter_append, Timer.isSearch]

/-- Firing a list of timers issues the requests of its search timers, in order, and
touches nothing else. -/
theorem Browser.foldl_fire (mk : String → Request) (l : List Timer) (b : Browser) :
    (l.foldl (Browser.fire mk) b).requests
        = b.requests ++ (l.filter Timer.isSearch).map (fun t => mk t.query) ∧
    (l.foldl (Browser.fire mk) b).timers = b.timers ∧
    (l.foldl (Browser.fire mk) b).now = b.now ∧
    (l.foldl (Browser.fire mk) b).nextTimerId = b.nextTimerId := by
  induction l generalizing b with
  | nil => simp
  | cons t ts ih =>
    obtain ⟨h1, h2, h3, h4⟩ := ih (Browser.fire mk b t)
    rw [List.foldl_cons, h1, h2, h3, h4]
    cases ha : t.action with
    | search q => simp [Browser.fire, Browser.fetch, ha, Timer.isSearch, Timer.query]
    | hideSuggestions => simp [Browser.fire, ha, Timer.isSearch]

/-- One millisecond: what is requested and what stays pending. -/
theorem Browser.tick_eq (mk : String → Request) (b : Browser) :
    (b.tick mk).requests
        = b.requests
          ++ ((b.searchTimers.filter fun t => decide (t.due ≤ b.now + 1)).map
              fun t => mk t.query) ∧
    (b.tick mk).searchTimers = (b.searchTimers.filter fun t => !decide (t.due ≤ b.now + 1)) ∧
    (b.tick mk).timers = (b.timers.filter fun t => !decide (t.due ≤ b.now + 1)) ∧
    (b.tick mk).now = b.now + 1 ∧
    (b.tick mk).nextTimerId = b.nextTimerId := by
  obtain ⟨h1, h2, h3, h4⟩ := Browser.foldl_fire mk
    (b.timers.filter fun t => decide (t.due ≤ b.now + 1))
    { b with now := b.now + 1, timers := b.timers.filter fun t => !decide (t.due ≤ b.now + 1) }
  refine ⟨?_, ?_, h2, h3, h4⟩
  · simp only [Browser.tick, h1, Browser.searchTimers, List.filter_filter, Bool.and_comm]
  · simp only [Browser.searchTimers, Browser.tick, h2, List.filter_filter, Bool.and_comm]

theorem Browser.tick_base (mk : String → Request) (b : Browser) (hb : b.Base) :
    (b.tick mk).Base := by
  obtain ⟨_, _, h3, _, h5⟩ := Browser.tick_eq mk b
  refine ⟨h5 ▸ hb.next_pos, ?_, ?_, ?_⟩
  · intro t ht
    rw [h3] at ht
    exact hb.pos t (List.mem_filter.mp ht).1
  · intro t ht
    rw [h3] at ht
    rw [h5]
    exact hb.fresh t (List.mem_filter.mp ht).1
  · rw [h3]
    exact hb.nodup.sublist ((List.filter_sublist b.timers).map Timer.id)

theorem Browser.tick_owned (mk : String → Request) (b : Browser) (handle : Option Nat)
    (ho : b.Owned handle) : (b.tick mk).Owned handle := by
  obtain ⟨_, h2, _⟩ := Browser.tick_eq mk b
  intro t ht
  rw [h2] at ht
  exact ho t (List.mem_filter.mp ht).1

theorem Browser.elapse_base (mk : String → Request) (b : Browser) (n : Nat) (hb : b.Base) :
    (b.elapse mk n).Base := by
  induction n generalizing b with
  | zero => exact hb
  | succ n ih => exact ih _ (Browser.tick_base mk b hb)

theorem Browser.elapse_owned (mk : String → Request) (b : Browser) (n : Nat)
    (handle : Option Nat) (ho : b.Owned handle) : (b.elapse mk n).Owned handle := by
  induction n generalizing b with
  | zero => exact ho
  | succ n ih => exact ih _ (Browser.tick_owned mk b handle ho)

theorem Browser.elapse_succ (mk : String → Request) (b : Browser) (n : Nat) :
    b.elapse mk (n + 1) = (b.elapse mk n).tick mk := by
  induction n generalizing b with
  | zero => rfl
  | succ n ih =>
    show Browser.elapse mk (b.tick mk) (n + 1) = _
    rw [ih]
    rfl

/-- While no pending search timer comes due, time passing issues no request and keeps
the pending search timers. -/
theorem Browser.elapse_not_due (mk : String → Request) (b : Browser) (n : Nat)
    (h : ∀ t ∈ b.searchTimers, b.now + n < t.due) :
    (b.elapse mk n).requests = b.requests ∧
    (b.elapse mk n).searchTimers = b.searchTimers ∧
    (b.elapse mk n).now = b.now + n ∧
    (b.elapse mk n).nextTimerId = b.nextTimerId := by
  induction n generalizing b with
  | zero => exact ⟨rfl, rfl, rfl, rfl⟩
  | succ n ih =>
    obtain ⟨h1, h2, _, h4, h5⟩ := Browser.tick_eq mk b
    have hnone : (b.searchTimers.filter fun t => decide (t.due ≤ b.now + 1)) = [] := by
      rw [List.filter_eq_nil_iff]
      intro t ht
      have := h t ht
      simp only [decide_eq_true_eq, not_le]
      omega
    have hall : (b.searchTimers.filter fun t => !decide (t.due ≤ b.now + 1))
        = b.searchTimers := by
      rw [List.filter_eq_self]
      intro t ht
      have := h t ht
      simp only [Bool.not_eq_true', decide_eq_false_iff_not, not_le]
      omega
    rw [hnone] at h1
    rw [hall] at h2
    have ih' := ih (b.tick mk) (by
      intro t ht
      rw [h2] at ht
      have := h t ht
      rw [h4]
      omega)
    obtain ⟨i1, i2, i3, i4⟩ := ih'
    refine ⟨?_, ?_, ?_, ?_⟩
    · show (Browser.elapse mk (b.tick mk) n).requests = _
      rw [i1, h1]
      simp
    · show (Browser.elapse mk (b.tick mk) n).searchTimers = _
      rw [i2, h2]
    · show (Browser.elapse mk (b.tick mk) n).now = _
      rw [i3, h4]
      omega
    · show (Browser.elapse mk (b.tick mk) n).nextTimerId = _
      rw [i4, h5]

/-- When the one pending search timer comes due at the end of the wait, the wait
issues exactly its request and leaves no search timer pending. -/
theorem Browser.elapse_fires (mk : String → Request) (b : Browser) (n : Nat) (t : Timer)
    (hs : b.searchTimers = [t]) (hlo : b.now + n < t.due) (hhi : t.due ≤ b.now + n + 1) :
    (b.elapse mk (n + 1)).requests = b.requests ++ [mk t.query] ∧
    (b.elapse mk (n + 1)).searchTimers = [] := by
  obtain ⟨e1, e2, e3, _⟩ := Browser.elapse_not_due mk b n (by
    intro u hu
    rw [hs, List.mem_singleton] at hu
    rw [hu]
    exact hlo)
  obtain ⟨h1, h2, _⟩ := Browser.tick_eq mk (b.elapse mk n)
  rw [Browser.elapse_succ, h1, h2, e1, e2, e3, hs]
  have hd : decide (t.due ≤ b.now + n + 1) = true := by simpa using hhi
  simp [hd]

/-! ## The widget of `autocomplete.js` -/

/-- The guarded `clearTimeout` of `handleInput` leaves no search timer pending. -/
theorem Autocomplete.clear_spec (b : Browser) (handle : Option Nat) (hb : b.Base)
    (ho : b.Owned handle) :
    (match handle with
      | some id => if id ≠ 0 then b.clearTimeout id else b
      | none => b).Base ∧
    (match handle with
      | some id => if id ≠ 0 then b.clearTimeout id else b
      | none => b).searchTimers = [] ∧
    (match handle with
      | some id => if id ≠ 0 then b.clearTimeout id else b
      | none => b).requests = b.requests ∧
    (match handle with
      | some id => if id ≠ 0 then b.clearTimeout id else b
      | none => b).now = b.now ∧
    (match handle with
      | some id => if id ≠ 0 then b.clearTimeout id else b
      | none => b).nextTimerId = b.nextTimerId := by
  cases handle with
  | none => exact ⟨hb, Browser.quiet_of_none b ho, rfl, rfl, rfl⟩
  | some id =>
    by_cases hid : id = 0
    · subst hid
      simpa using ⟨hb, Browser.quiet_of_zero b hb ho⟩
    · simp only [ne_eq, hid, not_false_eq_true, if_true]
      exact ⟨Browser.clearTimeout_base b id hb, Browser.clearTimeout_quiet b id ho, rfl, rfl,
        rfl⟩

/-- What `handleInput` does to the timers and the requests. -/
theorem Autocomplete.handleInput_spec (s : AcState) (hs : s.Inv) :
    (Autocomplete.handleInput s).Inv ∧
    (Autocomplete.handleInput s).browser.requests = s.browser.requests ∧
    (Autocomplete.handleInput s).browser.now = s.browser.now ∧
    (Autocomplete.handleInput s).widget.options = s.widget.options ∧
    (jsLength (jsTrim s.widget.inputValue) < s.widget.options.minLength →
      (Autocomplete.handleInput s).browser.searchTimers = [] ∧
      (Autocomplete.handleInput s).browser.nextTimerId = s.browser.nextTimerId) ∧
    (s.widget.options.minLength ≤ jsLength (jsTrim s.widget.inputValue) →
      (Autocomplete.handleInput s).browser.searchTimers
        = [⟨s.browser.nextTimerId, s.browser.now + s.widget.options.delay,
            .search (jsTrim s.widget.inputValue)⟩]) := by
  obtain ⟨c1, c2, c3, c4, c5⟩ := Autocomplete.clear_spec s.browser s.widget.timeout hs.1 hs.2
  by_cases hlen : jsLength (jsTrim s.widget.inputValue) < s.widget.options.minLength
  · have hq : (Autocomplete.handleInput s).browser.searchTimers = [] := by
      simp only [Autocomplete.handleInput, hlen, if_true]
      exact c2
    refine ⟨⟨?_, ?_⟩, ?_, ?_, ?_, ?_, ?_⟩
    · simp only [Autocomplete.handleInput, hlen, if_true]
      exact c1
    · intro t ht
      rw [hq] at ht
      exact absurd ht (List.not_mem_nil t)
    · simp only [Autocomplete.handleInput, hlen, if_true]
      exact c3
    · simp only [Autocomplete.handleInput, hlen, if_true]
      exact c4
    · simp [Autocomplete.handleInput, hlen, Autocomplete.hideSuggestions]
    · intro _
      refine ⟨hq, ?_⟩
      simp only [Autocomplete.handleInput, hlen, if_true]
      exact c5
    · intro h
      omega
  · have hst : (Autocomplete.handleInput s).browser.searchTimers
        = [⟨s.browser.nextTimerId, s.browser.now + s.widget.options.delay,
            .search (jsTrim s.widget.inputValue)⟩] := by
      simp only [Autocomplete.handleInput, hlen, if_false]
      rw [Browser.setTimeout_search, c2, c4, c5]
      rfl
    refine ⟨⟨?_, ?_⟩, ?_, ?_, ?_, ?_, ?_⟩
    · simp only [Autocomplete.handleInput, hlen, if_false]
      exact Browser.setTimeout_base _ _ _ c1
    · intro t ht
      rw [hst, List.mem_singleton] at ht
      subst ht
      simp only [Autocomplete.handleInput, hlen, if_false, Browser.setTimeout]
      rw [c5]
    · simp only [Autocomplete.handleInput, hlen, if_false, Browser.setTimeout]
      exact c3
    · simp only [Autocomplete.handleInput, hlen, if_false, Browser.setTimeout]
      exact c4
    · simp [Autocomplete.handleInput, hlen]
    · intro h
      exact absurd h hlen
    · intro _
      exact hst

/-- The hide timers that fire change neither the options nor the handle. -/
theorem Autocomplete.foldl_hide (l : List Timer) (w : Autocomplete) :
    (l.foldl (fun w t => if t.isSearch then w else w.hideSuggestions) w).options = w.options ∧
    (l.foldl (fun w t => if t.isSearch then w else w.hideSuggestions) w).timeout
      = w.timeout := by
  induction l generalizing w with
  | nil => exact ⟨rfl, rfl⟩
  | cons t ts ih =>
    rw [List.foldl_cons]
    obtain ⟨h1, h2⟩ := ih (if t.isSearch then w else w.hideSuggestions)
    rw [h1, h2]
    cases t.isSearch <;> simp [Autocomplete.hideSuggestions]

/-- Time passing acts on the browser of a widget as `Browser.elapse` and keeps the
options and the handle. -/
theorem Autocomplete.elapse_eq (s : AcState) (n : Nat) :
    (Autocomplete.elapse s n).browser
      = s.browser.elapse (Autocomplete.searchRequest s.widget.options) n ∧
    (Autocomplete.elapse s n).widget.options = s.widget.options ∧
    (Autocomplete.elapse s n).widget.timeout = s.widget.timeout := by
  induction n generalizing s with
  | zero => exact ⟨rfl, rfl, rfl⟩
  | succ n ih =>
    obtain ⟨h1, h2, h3⟩ := ih (Autocomplete.tick s)
    obtain ⟨f1, f2⟩ := Autocomplete.foldl_hide
      (s.browser.timers.filter fun t => decide (t.due ≤ s.browser.now + 1)) s.widget
    have ho : (Autocomplete.tick s).widget.options = s.widget.options := f1
    have ht : (Autocomplete.tick s).widget.timeout = s.widget.timeout := f2
    refine ⟨?_, ?_, ?_⟩
    · show (Autocomplete.elapse (Autocomplete.tick s) n).browser = _
      rw [h1, ho]
      rfl
    · show (Autocomplete.elapse (Autocomplete.tick s) n).widget.options = _
      rw [h2, ho]
    · show (Autocomplete.elapse (Autocomplete.tick s) n).widget.timeout = _
      rw [h3, ht]

theorem Autocomplete.elapse_inv (s : AcState) (n : Nat) (hs : s.Inv) :
    (Autocomplete.elapse s n).Inv := by
  obtain ⟨h1, _, h3⟩ := Autocomplete.elapse_eq s n
  unfold AcState.Inv
  rw [h1, h3]
  exact ⟨Browser.elapse_base _ _ _ hs.1, Browser.elapse_owned _ _ _ _ hs.2⟩

/-- Every event keeps the timer invariant and the options. -/
theorem Autocomplete.step_inv (s : AcState) (e : AcEvent) (hs : s.Inv) :
    (Autocomplete.step s e).Inv ∧ (Autocomplete.step s e).widget.options = s.widget.options := by
  cases e with
  | input value =>
    obtain ⟨h1, _, _, h4, _⟩ := Autocomplete.handleInput_spec
      { s with widget := { s.widget with inputValue := value } } hs
    exact ⟨h1, h4⟩
  | blur =>
    refine ⟨⟨Browser.setTimeout_base _ _ _ hs.1, ?_⟩, rfl⟩
    intro t ht
    have : t ∈ s.browser.searchTimers := by
      rw [← Browser.setTimeout_hide s.browser 150]
      exact ht
    exact hs.2 t this
  | focus =>
    simp only [Autocomplete.step, Autocomplete.handleFocus]
    split
    · exact ⟨⟨⟨hs.1.next_pos, hs.1.pos, hs.1.fresh, hs.1.nodup⟩, hs.2⟩, rfl⟩
    · exact ⟨hs, rfl⟩
  | elapse ms =>
    exact ⟨Autocomplete.elapse_inv s ms hs, (Autocomplete.elapse_eq s ms).2.1⟩

theorem Autocomplete.run_inv (s : AcState) (events : List AcEvent) (hs : s.Inv) :
    (Autocomplete.run s events).Inv ∧
    (Autocomplete.run s events).widget.options = s.widget.options := by
  induction events generalizing s with
  | nil => exact ⟨hs, rfl⟩
  | cons e es ih =>
    obtain ⟨h1, h2⟩ := Autocomplete.step_inv s e hs
    obtain ⟨i1, i2⟩ := ih (Autocomplete.step s e) h1
    exact ⟨i1, i2.trans h2⟩

theorem Autocomplete.start_inv (options : AutocompleteOptions) (value : String) (now : Nat) :
    (Autocomplete.start options value now).Inv :=
  ⟨Browser.fresh_base now, Browser.fresh_owned now _⟩

theorem Autocomplete.run_append (s : AcState) (es fs : List AcEvent) :
    Autocomplete.run s (es ++ fs) = Autocomplete.run (Autocomplete.run s es) fs := by
  simp [Autocomplete.run, List.foldl_append]

/-- What an input event does to the timers and the requests of a widget. -/
theorem Autocomplete.input_spec (s : AcState) (value : String) (hs : s.Inv) :
    (Autocomplete.step s (.input value)).Inv ∧
    (Autocomplete.step s (.input value)).browser.requests = s.browser.requests ∧
    (Autocomplete.step s (.input value)).browser.now = s.browser.now ∧
    (Autocomplete.step s (.input value)).widget.options = s.widget.options ∧
    (jsLength (jsTrim value) < s.widget.options.minLength →
      (Autocomplete.step s (.input value)).browser.searchTimers = [] ∧
      (Autocomplete.step s (.input value)).browser.nextTimerId = s.browser.nextTimerId) ∧
    (s.widget.options.minLength ≤ jsLength (jsTrim value) →
      (Autocomplete.step s (.input value)).browser.searchTimers
        = [⟨s.browser.nextTimerId, s.browser.now + s.widget.options.delay,
            .search (jsTrim value)⟩]) :=
  Autocomplete.handleInput_spec { s with widget := { s.widget with inputValue := value } } hs

/-- After an input event, no request is issued before the delay has passed. -/
theorem Autocomplete.input_then_wait (s : AcState) (value : String) (hs : s.Inv) (gap : Nat)
    (hg : gap < s.widget.options.delay) :
    (Autocomplete.elapse (Autocomplete.step s (.input value)) gap).Inv ∧
    (Autocomplete.elapse (Autocomplete.step s (.input value)) gap).browser.requests
      = s.browser.requests ∧
    (Autocomplete.elapse (Autocomplete.step s (.input value)) gap).widget.options
      = s.widget.options := by
  obtain ⟨h1, h2, h3, h4, h5, h6⟩ := Autocomplete.input_spec s value hs
  obtain ⟨e1, e2, _⟩ := Autocomplete.elapse_eq (Autocomplete.step s (.input value)) gap
  have hnd : ∀ t ∈ (Autocomplete.step s (.input value)).browser.searchTimers,
      (Autocomplete.step s (.input value)).browser.now + gap < t.due := by
    intro t ht
    by_cases hl : jsLength (jsTrim value) < s.widget.options.minLength
    · rw [(h5 hl).1] at ht
      exact absurd ht (List.not_mem_nil t)
    · rw [h6 (by omega), List.mem_singleton] at ht
      subst ht
      rw [h3]
      show s.browser.now + gap < s.browser.now + s.widget.options.delay
      omega
  obtain ⟨n1, _⟩ := Browser.elapse_not_due
    (Autocomplete.searchRequest (Autocomplete.step s (.input value)).widget.options) _ gap hnd
  exact ⟨Autocomplete.elapse_inv _ _ h1, by rw [e1, n1, h2], e2.trans h4⟩

/-- After an input event with a text long enough, the delay without input issues
exactly the request for that text. -/
theorem Autocomplete.input_then_delay (s : AcState) (value : String) (hs : s.Inv)
    (hlen : s.widget.options.minLength ≤ jsLength (jsTrim value))
    (hdelay : 0 < s.widget.options.delay) :
    (Autocomplete.elapse (Autocomplete.step s (.input value))
        s.widget.options.delay).browser.requests
      = s.browser.requests ++ [Autocomplete.searchRequest s.widget.options (jsTrim value)] := by
  obtain ⟨_, h2, h3, h4, _, h6⟩ := Autocomplete.input_spec s value hs
  obtain ⟨d, hd⟩ : ∃ d, s.widget.options.delay = d + 1 :=
    ⟨s.widget.options.delay - 1, by omega⟩
  obtain ⟨f1, _⟩ := Browser.elapse_fires (Autocomplete.searchRequest s.widget.options)
    (Autocomplete.step s (.input value)).browser d _ (h6 hlen)
    (by
      rw [h3]
      show s.browser.now + d < s.browser.now + s.widget.options.delay
      omega)
    (by
      rw [h3]
      show s.browser.now + s.widget.options.delay ≤ s.browser.now + d + 1
      omega)
  rw [(Autocomplete.elapse_eq _ _).1, h4, hd, f1, h2]
  rfl

/-- A burst of inputs less than the delay apart, ending in a text long enough, then
the delay without input: exactly one request, for the last text. -/
theorem Autocomplete.burst_requests (s : AcState) (hs : s.Inv) (value : String)
    (rest : List (Nat × String))
    (hgap : ∀ gv ∈ rest, gv.1 < s.widget.options.delay)
    (hlen : s.widget.options.minLength ≤ jsLength (jsTrim (lastValue value rest)))
    (hdelay : 0 < s.widget.options.delay) :
    (Autocomplete.run s (.input value :: acBurst rest
        ++ [.elapse s.widget.options.delay])).browser.requests
      = s.browser.requests
        ++ [Autocomplete.searchRequest s.widget.options (jsTrim (lastValue value rest))] := by
  induction rest generalizing s value with
  | nil => exact Autocomplete.input_then_delay s value hs hlen hdelay
  | cons gv rest ih =>
    obtain ⟨gap, next⟩ := gv
    have hg : gap < s.widget.options.delay := hgap (gap, next) (by simp)
    obtain ⟨w1, w2, w3⟩ := Autocomplete.input_then_wait s value hs gap hg
    have key := ih (Autocomplete.elapse (Autocomplete.step s (.input value)) gap) w1 next
      (by
        intro gv hgv
        rw [w3]
        exact hgap gv (by simp [hgv]))
      (by rw [w3]; exact hlen)
      (by rw [w3]; exact hdelay)
    rw [w3, w2] at key
    exact key

/-! ## The inputs wired by `setupAutocomplete` -/

/-- The `clearTimeout` of the listener leaves no search timer pending. -/
theorem SetupAutocomplete.listener_clear_spec (b : Browser) (handle : Option Nat) (hb : b.Base)
    (ho : b.Owned handle) :
    (match handle with
      | some id => b.clearTimeout id
      | none => b).Base ∧
    (match handle with
      | some id => b.clearTimeout id
      | none => b).searchTimers = [] ∧
    (match handle with
      | some id => b.clearTimeout id
      | none => b).requests = b.requests ∧
    (match handle with
      | some id => b.clearTimeout id
      | none => b).now = b.now ∧
    (match handle with
      | some id => b.clearTimeout id
      | none => b).nextTimerId = b.nextTimerId := by
  cases handle with
  | none => exact ⟨hb, Browser.quiet_of_none b ho, rfl, rfl, rfl⟩
  | some id =>
    exact ⟨Browser.clearTimeout_base b id hb, Browser.clearTimeout_quiet b id ho, rfl, rfl, rfl⟩

/-- What the `input` listener does to the timers and the requests. -/
theorem SetupAutocomplete.listener_spec (s : SetupState) (hs : s.Inv) :
    (SetupAutocomplete.handleInput s).Inv ∧
    (SetupAutocomplete.handleInput s).browser.requests = s.browser.requests ∧
    (SetupAutocomplete.handleInput s).browser.now = s.browser.now ∧
    (SetupAutocomplete.handleInput s).closure.url = s.closure.url ∧
    (jsLength (jsTrim s.closure.inputValue) < 2 →
      (SetupAutocomplete.handleInput s).browser.searchTimers = [] ∧
      (SetupAutocomplete.handleInput s).browser.nextTimerId = s.browser.nextTimerId) ∧
    (2 ≤ jsLength (jsTrim s.closure.inputValue) →
      (SetupAutocomplete.handleInput s).browser.searchTimers
        = [⟨s.browser.nextTimerId, s.browser.now + 300,
            .search (jsTrim s.closure.inputValue)⟩]) := by
  obtain ⟨c1, c2, c3, c4, c5⟩ :=
    SetupAutocomplete.listener_clear_spec s.browser s.closure.timeout hs.1 hs.2
  have hurl : (match s.closure.dropdown with
      | some _ => { s.closure with shown := none }
      | none => s.closure).url = s.closure.url := by
    cases s.closure.dropdown <;> rfl
  have hto : (match s.closure.dropdown with
      | some _ => { s.closure with shown := none }
      | none => s.closure).timeout = s.closure.timeout := by
    cases s.closure.dropdown <;> rfl
  by_cases hlen : jsLength (jsTrim s.closure.inputValue) < 2
  · have hq : (SetupAutocomplete.handleInput s).browser.searchTimers = [] := by
      simp only [SetupAutocomplete.handleInput, hlen, if_true]
      exact c2
    refine ⟨⟨?_, ?_⟩, ?_, ?_, ?_, ?_, ?_⟩
    · simp only [SetupAutocomplete.handleInput, hlen, if_true]
      exact c1
    · intro t ht
      rw [hq] at ht
      exact absurd ht (List.not_mem_nil t)
    · simp only [SetupAutocomplete.handleInput, hlen, if_true]
      exact c3
    · simp only [SetupAutocomplete.handleInput, hlen, if_true]
      exact c4
    · simp only [SetupAutocomplete.handleInput, hlen, if_true]
      exact hurl
    · intro _
      refine ⟨hq, ?_⟩
      simp only [SetupAutocomplete.handleInput, hlen, if_true]
      exact c5
    · intro h
      omega
  · have hst : (SetupAutocomplete.handleInput s).browser.searchTimers
        = [⟨s.browser.nextTimerId, s.browser.now + 300,
            .search (jsTrim s.closure.inputValue)⟩] := by
      simp only [SetupAutocomplete.handleInput, hlen, if_false]
      rw [Browser.setTimeout_search, c2, c4, c5]
      rfl
    refine ⟨⟨?_, ?_⟩, ?_, ?_, ?_, ?_, ?_⟩
    · simp only [SetupAutocomplete.handleInput, hlen, if_false]
      exact Browser.setTimeout_base _ _ _ c1
    · intro t ht
      rw [hst, List.mem_singleton] at ht
      subst ht
      simp only [SetupAutocomplete.handleInput, hlen, if_false, Browser.setTimeout]
      rw [c5]
    · simp only [SetupAutocomplete.handleInput, hlen, if_false, Browser.setTimeout]
      exact c3
    · simp only [SetupAutocomplete.handleInput, hlen, if_false, Browser.setTimeout]
      exact c4
    · simp only [SetupAutocomplete.handleInput, hlen, if_false]
      exact hurl
    · intro h
      exact absurd h hlen
    · intro _
      exact hst

/-- What an input event does to the timers and the requests of such an input. -/
theorem SetupAutocomplete.listener_input_spec (s : SetupState) (value : String) (hs : s.Inv) :
    (SetupAutocomplete.step s (.input value)).Inv ∧
    (SetupAutocomplete.step s (.input value)).browser.requests = s.browser.requests ∧
    (SetupAutocomplete.step s (.input value)).browser.now = s.browser.now ∧
    (SetupAutocomplete.step s (.input value)).closure.url = s.closure.url ∧
    (jsLength (jsTrim value) < 2 →
      (SetupAutocomplete.step s (.input value)).browser.searchTimers = [] ∧
      (SetupAutocomplete.step s (.input value)).browser.nextTimerId = s.browser.nextTimerId) ∧
    (2 ≤ jsLength (jsTrim value) →
      (SetupAutocomplete.step s (.input value)).browser.searchTimers
        = [⟨s.browser.nextTimerId, s.browser.now + 300, .search (jsTrim value)⟩]) :=
  SetupAutocomplete.listener_spec
    { s with closure := { s.closure with inputValue := value } } hs

/-- Every event keeps the timer invariant and the endpoint. -/
theorem SetupAutocomplete.listener_step_inv (s : SetupState) (e : SetupEvent) (hs : s.Inv) :
    (SetupAutocomplete.step s e).Inv ∧ (SetupAutocomplete.step s e).closure.url = s.closure.url := by
  cases e with
  | input value =>
    obtain ⟨h1, _, _, h4, _⟩ := SetupAutocomplete.listener_input_spec s value hs
    exact ⟨h1, h4⟩
  | elapse ms =>
    exact ⟨⟨Browser.elapse_base _ _ _ hs.1, Browser.elapse_owned _ _ _ _ hs.2⟩, rfl⟩

theorem SetupAutocomplete.listener_run_inv (s : SetupState) (events : List SetupEvent) (hs : s.Inv) :
    (SetupAutocomplete.run s events).Inv ∧
    (SetupAutocomplete.run s events).closure.url = s.closure.url := by
  induction events generalizing s with
  | nil => exact ⟨hs, rfl⟩
  | cons e es ih =>
    obtain ⟨h1, h2⟩ := SetupAutocomplete.listener_step_inv s e hs
    obtain ⟨i1, i2⟩ := ih (SetupAutocomplete.step s e) h1
    exact ⟨i1, i2.trans h2⟩

theorem SetupAutocomplete.listener_start_inv (url value : String) (now : Nat) :
    (SetupAutocomplete.start url value now).Inv :=
  ⟨Browser.fresh_base now, Browser.fresh_owned now _⟩

/-- After an input event, no request is issued before 300 ms have passed. -/
theorem SetupAutocomplete.listener_then_wait (s : SetupState) (value : String) (hs : s.Inv)
    (gap : Nat) (hg : gap < 300) :
    (SetupAutocomplete.step (SetupAutocomplete.step s (.input value)) (.elapse gap)).Inv ∧
    (SetupAutocomplete.step (SetupAutocomplete.step s (.input value))
        (.elapse gap)).browser.requests = s.browser.requests ∧
    (SetupAutocomplete.step (SetupAutocomplete.step s (.input value))
        (.elapse gap)).closure.url = s.closure.url := by
  obtain ⟨h1, h2, h3, h4, h5, h6⟩ := SetupAutocomplete.listener_input_spec s value hs
  have hnd : ∀ t ∈ (SetupAutocomplete.step s (.input value)).browser.searchTimers,
      (SetupAutocomplete.step s (.input value)).browser.now + gap < t.due := by
    intro t ht
    by_cases hl : jsLength (jsTrim value) < 2
    · rw [(h5 hl).1] at ht
      exact absurd ht (List.not_mem_nil t)
    · rw [h6 (by omega), List.mem_singleton] at ht
      subst ht
      rw [h3]
      show s.browser.now + gap < s.browser.now + 300
      omega
  obtain ⟨n1, _⟩ := Browser.elapse_not_due
    (SetupAutocomplete.request (SetupAutocomplete.step s (.input value)).closure.url) _ gap hnd
  obtain ⟨i1, i2⟩ := SetupAutocomplete.listener_step_inv _ (.elapse gap) h1
  refine ⟨i1, ?_, i2.trans h4⟩
  show (Browser.elapse _ (SetupAutocomplete.step s (.input value)).browser gap).requests = _
  rw [n1, h2]

/-- After an input event with a text long enough, a wait that ends when the timer
comes due issues exactly the request for that text. -/
theorem SetupAutocomplete.listener_then_due (s : SetupState) (value : String) (hs : s.Inv)
    (hlen : 2 ≤ jsLength (jsTrim value)) (d n : Nat) (hn : n = d + 1) (hd : n = 300) :
    (SetupAutocomplete.step (SetupAutocomplete.step s (.input value))
        (.elapse n)).browser.requests
      = s.browser.requests ++ [SetupAutocomplete.request s.closure.url (jsTrim value)] := by
  subst hn
  obtain ⟨_, h2, h3, h4, _, h6⟩ := SetupAutocomplete.listener_input_spec s value hs
  obtain ⟨f1, _⟩ := Browser.elapse_fires
    (SetupAutocomplete.request (SetupAutocomplete.step s (.input value)).closure.url)
    (SetupAutocomplete.step s (.input value)).browser d _ (h6 hlen)
    (by
      rw [h3]
      show s.browser.now + d < s.browser.now + 300
      omega)
    (by
      rw [h3]
      show s.browser.now + 300 ≤ s.browser.now + d + 1
      omega)
  show (Browser.elapse _ (SetupAutocomplete.step s (.input value)).browser (d + 1)).requests = _
  rw [f1, h2, h4]
  rfl

/-- After an input event with a text long enough, 300 ms without input issue exactly
the request for that text. -/
theorem SetupAutocomplete.listener_then_delay (s : SetupState) (value : String) (hs : s.Inv)
    (hlen : 2 ≤ jsLength (jsTrim value)) :
    (SetupAutocomplete.step (SetupAutocomplete.step s (.input value))
        (.elapse 300)).browser.requests
      = s.browser.requests ++ [SetupAutocomplete.request s.closure.url (jsTrim value)] :=
  SetupAutocomplete.listener_then_due s value hs hlen 299 300 rfl rfl

/-- A burst of inputs less than 300 ms apart, ending in a text long enough, then
300 ms without input: exactly one request, for the last text. -/
theorem SetupAutocomplete.listener_burst_requests (s : SetupState) (hs : s.Inv) (value : String)
    (rest : List (Nat × String)) (hgap : ∀ gv ∈ rest, gv.1 < 300)
    (hlen : 2 ≤ jsLength (jsTrim (lastValue value rest))) :
    (SetupAutocomplete.run s (.input value :: setupBurst rest ++ [.elapse 300])).browser.requests
      = s.browser.requests
        ++ [SetupAutocomplete.request s.closure.url (jsTrim (lastValue value rest))] := by
  induction rest generalizing s value with
  | nil => exact SetupAutocomplete.listener_then_delay s value hs hlen
  | cons gv rest ih =>
    obtain ⟨gap, next⟩ := gv
    have hg : gap < 300 := hgap (gap, next) (by simp)
    obtain ⟨w1, w2, w3⟩ := SetupAutocomplete.listener_then_wait s value hs gap hg
    have key := ih (SetupAutocomplete.step (SetupAutocomplete.step s (.input value))
      (.elapse gap)) w1 next (fun gv hgv => hgap gv (by simp [hgv])) hlen
    rw [w3, w2] at key
    exact key

/-! ## Debouncing -/

/-- C9: on a suggestion input (an `Autocomplete` with `minLength` 2, or an input
wired by `setupAutocomplete`), in any state its events can lead to, an input event
whose trimmed text has fewer than 2 characters issues no request, starts no timer
(the next handle is unchanged), leaves no search timer pending, and no request
follows however long the input then stays untouched. -/
theorem short_input_issues_no_request (value : String)
    (hshort : jsLength (jsTrim value) < 2) :
    (∀ (options : AutocompleteOptions) (initial : String) (now : Nat) (events : List AcEvent),
      options.minLength = 2 →
      (Autocomplete.step (Autocomplete.run (Autocomplete.start options initial now) events)
          (.input value)).browser.requests
        = (Autocomplete.run (Autocomplete.start options initial now) events).browser.requests ∧
      (Autocomplete.step (Autocomplete.run (Autocomplete.start options initial now) events)
          (.input value)).browser.nextTimerId
        = (Autocomplete.run (Autocomplete.start options initial now)
            events).browser.nextTimerId ∧
      (Autocomplete.step (Autocomplete.run (Autocomplete.start options initial now) events)
          (.input value)).browser.searchTimers = [] ∧
      ∀ n, (Autocomplete.elapse
          (Autocomplete.step (Autocomplete.run (Autocomplete.start options initial now) events)
            (.input value)) n).browser.requests
        = (Autocomplete.run (Autocomplete.start options initial now) events).browser.requests) ∧
    (∀ (url initial : String) (now : Nat) (events : List SetupEvent),
      (SetupAutocomplete.step
          (SetupAutocomplete.run (SetupAutocomplete.start url initial now) events)
          (.input value)).browser.requests
        = (SetupAutocomplete.run (SetupAutocomplete.start url initial now)
            events).browser.requests ∧
      (SetupAutocomplete.step
          (SetupAutocomplete.run (SetupAutocomplete.start url initial now) events)
          (.input value)).browser.nextTimerId
        = (SetupAutocomplete.run (SetupAutocomplete.start url initial now)
            events).browser.nextTimerId ∧
      (SetupAutocomplete.step
          (SetupAutocomplete.run (SetupAutocomplete.start url initial now) events)
          (.input value)).browser.searchTimers = [] ∧
      ∀ n, (SetupAutocomplete.step
          (SetupAutocomplete.step
            (SetupAutocomplete.run (SetupAutocomplete.start url initial now) events)
            (.input value)) (.elapse n)).browser.requests
        = (SetupAutocomplete.run (SetupAutocomplete.start url initial now)
            events).browser.requests) := by
  constructor
  · intro options initial now events hmin
    obtain ⟨hinv, hopt⟩ := Autocomplete.run_inv (Autocomplete.start options initial now) events
      (Autocomplete.start_inv options initial now)
    have hopt' : (Autocomplete.run (Autocomplete.start options initial now)
        events).widget.options.minLength = 2 := by
      rw [hopt]
      exact hmin
    obtain ⟨_, h2, _, _, h5, _⟩ := Autocomplete.input_spec _ value hinv
    obtain ⟨q1, q2⟩ := h5 (by rw [hopt']; exact hshort)
    refine ⟨h2, q2, q1, fun n => ?_⟩
    obtain ⟨n1, _⟩ := Browser.elapse_not_due
      (Autocomplete.searchRequest (Autocomplete.step
        (Autocomplete.run (Autocomplete.start options initial now) events)
        (.input value)).widget.options)
      (Autocomplete.step (Autocomplete.run (Autocomplete.start options initial now) events)
        (.input value)).browser n
      (by
        intro t ht
        rw [q1] at ht
        exact absurd ht (List.not_mem_nil t))
    rw [(Autocomplete.elapse_eq _ n).1, n1, h2]
  · intro url initial now events
    obtain ⟨hinv, _⟩ := SetupAutocomplete.listener_run_inv (SetupAutocomplete.start url initial now)
      events (SetupAutocomplete.listener_start_inv url initial now)
    obtain ⟨_, h2, _, _, h5, _⟩ := SetupAutocomplete.listener_input_spec _ value hinv
    obtain ⟨q1, q2⟩ := h5 hshort
    refine ⟨h2, q2, q1, fun n => ?_⟩
    obtain ⟨n1, _⟩ := Browser.elapse_not_due
      (SetupAutocomplete.request (SetupAutocomplete.step
        (SetupAutocomplete.run (SetupAutocomplete.start url initial now) events)
        (.input value)).closure.url)
      (SetupAutocomplete.step
        (SetupAutocomplete.run (SetupAutocomplete.start url initial now) events)
        (.input value)).browser n
      (by
        intro t ht
        rw [q1] at ht
        exact absurd ht (List.not_mem_nil t))
    show (Browser.elapse _ _ n).requests = _
    rw [n1, h2]

/-- C9 for the text `a` typed 100 ms after the text `ab`: the timer of `ab` is no
longer pending, and 300 ms later still nothing has been requested. -/
theorem short_input_issues_no_request_witness :
    jsLength (jsTrim "a") < 2 ∧
    (Autocomplete.step
        (Autocomplete.run (Autocomplete.start AutocompleteOptions.defaults "" 0)
          [.input "ab", .elapse 100])
        (.input "a")).browser.searchTimers = [] ∧
    (Autocomplete.elapse
        (Autocomplete.step
          (Autocomplete.run (Autocomplete.start AutocompleteOptions.defaults "" 0)
            [.input "ab", .elapse 100])
          (.input "a")) 300).browser.requests
      = (Autocomplete.run (Autocomplete.start AutocompleteOptions.defaults "" 0)
          [.input "ab", .elapse 100]).browser.requests :=
  ⟨by decide,
    ((short_input_issues_no_request "a" (by decide)).1 AutocompleteOptions.defaults "" 0
      [.input "ab", .elapse 100] rfl).2.2.1,
    ((short_input_issues_no_request "a" (by decide)).1 AutocompleteOptions.defaults "" 0
      [.input "ab", .elapse 100] rfl).2.2.2 300⟩

/-- C10: on a suggestion input, in any state its events can lead to, at most one
search timer is pending; and a burst of input events less than 300 ms apart whose
last trimmed text has at least 2 characters, followed by 300 ms without input, issues
exactly one request, which carries the trimmed text of the last input event. -/
theorem debounce_single_request :
    (∀ (options : AutocompleteOptions) (initial : String) (now : Nat) (events : List AcEvent),
      (Autocomplete.run (Autocomplete.start options initial now)
        events).browser.searchTimers.length ≤ 1) ∧
    (∀ (url initial : String) (now : Nat) (events : List SetupEvent),
      (SetupAutocomplete.run (SetupAutocomplete.start url initial now)
        events).browser.searchTimers.length ≤ 1) ∧
    (∀ (options : AutocompleteOptions) (initial : String) (now : Nat) (events : List AcEvent)
        (value : String) (rest : List (Nat × String)),
      options.minLength = 2 → options.delay = 300 →
      (∀ gv ∈ rest, gv.1 < 300) → 2 ≤ jsLength (jsTrim (lastValue value rest)) →
      (Autocomplete.run (Autocomplete.run (Autocomplete.start options initial now) events)
          (.input value :: acBurst rest ++ [.elapse 300])).browser.requests
        = (Autocomplete.run (Autocomplete.start options initial now) events).browser.requests
          ++ [Autocomplete.searchRequest options (jsTrim (lastValue value rest))]) ∧
    (∀ (url initial : String) (now : Nat) (events : List SetupEvent)
        (value : String) (rest : List (Nat × String)),
      (∀ gv ∈ rest, gv.1 < 300) → 2 ≤ jsLength (jsTrim (lastValue value rest)) →
      (SetupAutocomplete.run
          (SetupAutocomplete.run (SetupAutocomplete.start url initial now) events)
          (.input value :: setupBurst rest ++ [.elapse 300])).browser.requests
        = (SetupAutocomplete.run (SetupAutocomplete.start url initial now)
            events).browser.requests
          ++ [SetupAutocomplete.request url (jsTrim (lastValue value rest))]) := by
  refine ⟨?_, ?_, ?_, ?_⟩
  · intro options initial now events
    obtain ⟨hinv, _⟩ := Autocomplete.run_inv (Autocomplete.start options initial now) events
      (Autocomplete.start_inv options initial now)
    exact Browser.searchTimers_length_le_one _ _ hinv.1 hinv.2
  · intro url initial now events
    obtain ⟨hinv, _⟩ := SetupAutocomplete.listener_run_inv (SetupAutocomplete.start url initial now)
      events (SetupAutocomplete.listener_start_inv url initial now)
    exact Browser.searchTimers_length_le_one _ _ hinv.1 hinv.2
  · intro options initial now events value rest hmin hdelay hgap hlen
    obtain ⟨hinv, hopt⟩ := Autocomplete.run_inv (Autocomplete.start options initial now) events
      (Autocomplete.start_inv options initial now)
    have hopt' : (Autocomplete.run (Autocomplete.start options initial now)
        events).widget.options = options := hopt
    have key := Autocomplete.burst_requests _ hinv value rest
      (by rw [hopt', hdelay]; exact hgap) (by rw [hopt', hmin]; exact hlen)
      (by rw [hopt', hdelay]; decide)
    rw [hopt', hdelay] at key
    exact key
  · intro url initial now events value rest hgap hlen
    obtain ⟨hinv, hurl⟩ := SetupAutocomplete.listener_run_inv (SetupAutocomplete.start url initial now)
      events (SetupAutocomplete.listener_start_inv url initial now)
    have hurl' : (SetupAutocomplete.run (SetupAutocomplete.start url initial now)
        events).closure.url = url := hurl
    have key := SetupAutocomplete.listener_burst_requests _ hinv value rest hgap hlen
    rw [hurl'] at key
    exact key

/-- C10 for the texts `ab` and, 100 ms later, `abc` followed by a blank: one request,
for `abc`. -/
theorem debounce_single_request_witness :
    AutocompleteOptions.defaults.minLength = 2 ∧ AutocompleteOptions.defaults.delay = 300 ∧
    (∀ gv ∈ [(100, "abc ")], gv.1 < 300) ∧
    2 ≤ jsLength (jsTrim (lastValue "ab" [(100, "abc ")])) ∧
    (Autocomplete.run
        (Autocomplete.run (Autocomplete.start AutocompleteOptions.defaults "" 0) [])
        (.input "ab" :: acBurst [(100, "abc ")] ++ [.elapse 300])).browser.requests
      = (Autocomplete.run (Autocomplete.start AutocompleteOptions.defaults "" 0)
          []).browser.requests
        ++ [Autocomplete.searchRequest AutocompleteOptions.defaults
            (jsTrim (lastValue "ab" [(100, "abc ")]))] :=
  ⟨rfl, rfl, by decide, by decide,
    debounce_single_request.2.2.1 AutocompleteOptions.defaults "" 0 [] "ab" [(100, "abc ")]
      rfl rfl (by decide) (by decide)⟩

/-! ## The suggestion list -/

/-- C11: for every record and every widget state, `selectSuggestion` sets the value of
the input to the record's configured field, calls the `onSelect` callback exactly once
with the record when one is configured (and not at all otherwise), and leaves the list
closed: `isOpen` false, `selectedIndex` -1, container hidden. -/
theorem selectSuggestion_commits (v : AcView) (suggestion : Suggestion) :
    (Autocomplete.selectSuggestion v suggestion).state.widget.inputValue
      = suggestion.field v.state.widget.options.field ∧
    (Autocomplete.selectSuggestion v suggestion).selected
      = (if v.state.widget.options.onSelect then v.selected ++ [suggestion] else v.selected) ∧
    (Autocomplete.selectSuggestion v suggestion).state.widget.isOpen = false ∧
    (Autocomplete.selectSuggestion v suggestion).state.widget.selectedIndex = -1 ∧
    (Autocomplete.selectSuggestion v suggestion).state.widget.containerDisplay = "none" :=
  ⟨rfl, rfl, rfl, rfl, rfl⟩

/-- C13, as stated, fails on an open list with no highlighted item: there an Enter
keydown commits nothing and the list stays open. -/
theorem handleKeydown_enter_without_highlight :
    (openView [[("article_number", "A1"), ("purchase_price", "1")]] (-1)).state.widget.isOpen
      = true ∧
    Autocomplete.handleKeydown
        (openView [[("article_number", "A1"), ("purchase_price", "1")]] (-1)) .enter
      = .ok (openView [[("article_number", "A1"), ("purchase_price", "1")]] (-1)) := by
  constructor <;> rfl

/-- C13, amended: on an open list, an Enter keydown with a highlighted item commits
that item (the input takes its field, the callback is called with it) and leaves the
list closed; an Enter keydown with no highlighted item changes nothing; an Escape
keydown leaves the list closed. -/
theorem handleKeydown_enter_escape (v : AcView) (hopen : v.state.widget.isOpen = true) :
    (∀ suggestion, 0 ≤ v.state.widget.selectedIndex →
      v.state.widget.suggestions[v.state.widget.selectedIndex.toNat]? = some suggestion →
      Autocomplete.handleKeydown v .enter = .ok (Autocomplete.selectSuggestion v suggestion) ∧
      (Autocomplete.selectSuggestion v suggestion).state.widget.isOpen = false ∧
      (Autocomplete.selectSuggestion v suggestion).state.widget.inputValue
        = suggestion.field v.state.widget.options.field) ∧
    (v.state.widget.selectedIndex < 0 → Autocomplete.handleKeydown v .enter = .ok v) ∧
    (∃ v', Autocomplete.handleKeydown v .escape = .ok v' ∧
      v'.state.widget.isOpen = false ∧ v'.state.widget.containerDisplay = "none" ∧
      v'.state.widget.selectedIndex = -1) := by
  refine ⟨?_, ?_, ?_⟩
  · intro suggestion hsel hget
    refine ⟨?_, rfl, rfl⟩
    simp [Autocomplete.handleKeydown, hopen, hsel, hget]
  · intro hneg
    have : ¬ v.state.widget.selectedIndex ≥ 0 := by omega
    simp [Autocomplete.handleKeydown, hopen, this]
  · refine ⟨v.withWidget v.state.widget.hideSuggestions, ?_, rfl, rfl, rfl⟩
    simp [Autocomplete.handleKeydown, hopen]

/-- C13, amended, at an open list of one record that is highlighted. -/
theorem handleKeydown_enter_escape_witness :
    Autocomplete.handleKeydown
        (openView [[("article_number", "A1"), ("purchase_price", "1")]] 0) .enter
      = .ok (Autocomplete.selectSuggestion
          (openView [[("article_number", "A1"), ("purchase_price", "1")]] 0)
          [("article_number", "A1"), ("purchase_price", "1")]) ∧
    (Autocomplete.selectSuggestion
        (openView [[("article_number", "A1"), ("purchase_price", "1")]] 0)
        [("article_number", "A1"), ("purchase_price", "1")]).state.widget.isOpen = false ∧
    (Autocomplete.selectSuggestion
        (openView [[("article_number", "A1"), ("purchase_price", "1")]] 0)
        [("article_number", "A1"), ("purchase_price", "1")]).state.widget.inputValue
      = Suggestion.field [("article_number", "A1"), ("purchase_price", "1")]
          (openView [[("article_number", "A1"), ("purchase_price", "1")]]
            0).state.widget.options.field :=
  (handleKeydown_enter_escape
    (openView [[("article_number", "A1"), ("purchase_price", "1")]] 0) rfl).1
    [("article_number", "A1"), ("purchase_price", "1")] (by decide) rfl

theorem Autocomplete.settles_refl (w : Autocomplete) : Autocomplete.Settles w w :=
  ⟨rfl, Or.inl ⟨rfl, rfl, rfl⟩⟩

theorem Autocomplete.settles_trans (a b c : Autocomplete) (h1 : Autocomplete.Settles a b)
    (h2 : Autocomplete.Settles b c) : Autocomplete.Settles a c := by
  obtain ⟨s1, v1⟩ := h1
  obtain ⟨s2, v2⟩ := h2
  refine ⟨s2.trans s1, ?_⟩
  rcases v2 with ⟨d, o, i⟩ | hid
  · rcases v1 with ⟨d', o', i'⟩ | ⟨d', o', i'⟩
    · exact Or.inl ⟨d.trans d', o.trans o', i.trans i'⟩
    · exact Or.inr ⟨d.trans d', o.trans o', i.trans i'⟩
  · exact Or.inr hid

theorem Autocomplete.settles_hide (w : Autocomplete) :
    Autocomplete.Settles w w.hideSuggestions :=
  ⟨rfl, Or.inr ⟨rfl, rfl, rfl⟩⟩

/-- The hide timers that fire keep the records and at most hide the list. -/
theorem Autocomplete.foldl_hide_settles (l : List Timer) (w : Autocomplete) :
    Autocomplete.Settles w
      (l.foldl (fun w t => if t.isSearch then w else w.hideSuggestions) w) := by
  induction l generalizing w with
  | nil => exact Autocomplete.settles_refl w
  | cons t ts ih =>
    rw [List.foldl_cons]
    refine Autocomplete.settles_trans _ _ _ ?_ (ih _)
    cases t.isSearch
    · exact Autocomplete.settles_hide w
    · exact Autocomplete.settles_refl w

theorem Autocomplete.elapse_settles (s : AcState) (n : Nat) :
    Autocomplete.Settles s.widget (Autocomplete.elapse s n).widget := by
  induction n generalizing s with
  | zero => exact Autocomplete.settles_refl _
  | succ n ih =>
    exact Autocomplete.settles_trans _ _ _ (Autocomplete.foldl_hide_settles _ _)
      (ih (Autocomplete.tick s))

/-- An event of the input or the clock keeps the records and at most hides the
list. -/
theorem Autocomplete.step_settles (s : AcState) (e : AcEvent) :
    Autocomplete.Settles s.widget (Autocomplete.step s e).widget := by
  cases e with
  | input value =>
    simp only [Autocomplete.step, Autocomplete.handleInput]
    split
    · exact ⟨rfl, Or.inr ⟨rfl, rfl, rfl⟩⟩
    · exact ⟨rfl, Or.inl ⟨rfl, rfl, rfl⟩⟩
  | blur => exact Autocomplete.settles_refl _
  | focus =>
    simp only [Autocomplete.step, Autocomplete.handleFocus]
    split <;> exact Autocomplete.settles_refl _
  | elapse ms => exact Autocomplete.elapse_settles s ms

/-- A view whose list is hidden satisfies the invariant. -/
theorem AcView.inv_of_hidden (v : AcView) (hd : v.state.widget.containerDisplay = "none")
    (ho : v.state.widget.isOpen = false) (hs : v.state.widget.selectedIndex = -1) : v.Inv := by
  refine ⟨by omega, by omega, fun h => absurd hd h, fun h => ?_, fun _ => hs⟩
  rw [ho] at h
  exact absurd h (by decide)

/-- The invariant carries over to a view with the same items whose widget has the
same records and the same or a hidden list. -/
theorem AcView.inv_of_settles (v v' : AcView) (hv : v.Inv) (hitems : v'.items = v.items)
    (h : Autocomplete.Settles v.state.widget v'.state.widget) : v'.Inv := by
  obtain ⟨hs, hview⟩ := h
  rcases hview with ⟨d, o, i⟩ | ⟨d, o, i⟩
  · refine ⟨by rw [i]; exact hv.lower, by rw [i, hs]; exact hv.upper, ?_, ?_, ?_⟩
    · intro h
      rw [o]
      exact hv.displayed (by rw [← d]; exact h)
    · intro h
      rw [hitems, hs]
      exact hv.rendered (by rw [← o]; exact h)
    · intro h
      rw [i]
      exact hv.closed (by rw [← o]; exact h)
  · exact AcView.inv_of_hidden v' d o i

/-- What `handleKeydown` does on an open list, key by key. -/
theorem Autocomplete.handleKeydown_open (v : AcView) (hopen : v.state.widget.isOpen = true) :
    Autocomplete.handleKeydown v .arrowDown
      = .ok (v.withWidget { v.state.widget with
          selectedIndex := min (v.state.widget.selectedIndex + 1)
            ((v.state.widget.suggestions.length : Int) - 1) }) ∧
    Autocomplete.handleKeydown v .arrowUp
      = .ok (v.withWidget { v.state.widget with
          selectedIndex := max (v.state.widget.selectedIndex - 1) (-1) }) ∧
    Autocomplete.handleKeydown v .escape = .ok (v.withWidget v.state.widget.hideSuggestions) ∧
    Autocomplete.handleKeydown v .other = .ok v := by
  have hn : (!v.state.widget.isOpen) = false := by rw [hopen]; rfl
  refine ⟨?_, ?_, ?_, ?_⟩ <;>
    simp only [Autocomplete.handleKeydown, hn, Bool.false_eq_true, if_false]

/-- In a view that satisfies the invariant no key makes `handleKeydown` throw, and
the view it returns satisfies the invariant. -/
theorem Autocomplete.handleKeydown_inv (v : AcView) (key : Key) (hv : v.Inv) :
    ∃ v', Autocomplete.handleKeydown v key = .ok v' ∧ v'.Inv := by
  by_cases hopen : v.state.widget.isOpen = true
  · obtain ⟨kd, ku, ke, ko⟩ := Autocomplete.handleKeydown_open v hopen
    have h1 := hv.lower
    have h2 := hv.upper
    cases key with
    | arrowDown =>
      refine ⟨_, kd, ?_⟩
      refine ⟨?_, ?_, fun _ => hopen, hv.rendered, fun h => ?_⟩
      · show -1 ≤ min (v.state.widget.selectedIndex + 1)
          ((v.state.widget.suggestions.length : Int) - 1)
        omega
      · show min (v.state.widget.selectedIndex + 1)
          ((v.state.widget.suggestions.length : Int) - 1)
            ≤ (v.state.widget.suggestions.length : Int) - 1
        omega
      · have h' : v.state.widget.isOpen = false := h
        rw [hopen] at h'
        exact absurd h' (by decide)
    | arrowUp =>
      refine ⟨_, ku, ?_⟩
      refine ⟨?_, ?_, fun _ => hopen, hv.rendered, fun h => ?_⟩
      · show -1 ≤ max (v.state.widget.selectedIndex - 1) (-1)
        omega
      · show max (v.state.widget.selectedIndex - 1) (-1)
            ≤ (v.state.widget.suggestions.length : Int) - 1
        omega
      · have h' : v.state.widget.isOpen = false := h
        rw [hopen] at h'
        exact absurd h' (by decide)
    | enter =>
      by_cases hsel : v.state.widget.selectedIndex ≥ 0
      · have hlt : v.state.widget.selectedIndex.toNat < v.state.widget.suggestions.length := by
          omega
        refine ⟨Autocomplete.selectSuggestion v
          (v.state.widget.suggestions.get ⟨_, hlt⟩), ?_, ?_⟩
        · simp [Autocomplete.handleKeydown, hopen, hsel, List.getElem?_eq_getElem hlt]
        · exact AcView.inv_of_hidden _ rfl rfl rfl
      · exact ⟨v, by simp [Autocomplete.handleKeydown, hopen, hsel], hv⟩
    | escape => exact ⟨_, ke, AcView.inv_of_hidden _ rfl rfl rfl⟩
    | other => exact ⟨v, ko, hv⟩
  · exact ⟨v, by simp [Autocomplete.handleKeydown, hopen], hv⟩

theorem Autocomplete.selectSuggestion_inv (v : AcView) (suggestion : Suggestion) :
    (Autocomplete.selectSuggestion v suggestion).Inv :=
  AcView.inv_of_hidden _ rfl rfl rfl

theorem Autocomplete.clear_inv (v : AcView) : (Autocomplete.clear v).Inv :=
  AcView.inv_of_hidden _ rfl rfl rfl

/-- Rendering, followed by the hiding the `catch` does when the template threw,
leaves the list hidden or shown with one item per record. -/
theorem Autocomplete.renderSuggestions_inv (v : AcView)
    (hsel : v.state.widget.selectedIndex = -1) :
    (if (Autocomplete.renderSuggestions v).2 then
      (Autocomplete.renderSuggestions v).1.withWidget
        (Autocomplete.renderSuggestions v).1.state.widget.hideSuggestions
    else (Autocomplete.renderSuggestions v).1).Inv := by
  by_cases h0 : v.state.widget.suggestions.length = 0
  · simp only [Autocomplete.renderSuggestions, h0, if_true, Bool.false_eq_true, if_false]
    exact AcView.inv_of_hidden _ rfl rfl rfl
  · by_cases hall : v.state.widget.suggestions.all Suggestion.renders = true
    · simp only [Autocomplete.renderSuggestions, h0, hall, if_true, Bool.false_eq_true,
        if_false]
      refine ⟨?_, ?_, fun _ => rfl, fun _ => rfl, fun h => ?_⟩
      · show (-1 : Int) ≤ v.state.widget.selectedIndex
        omega
      · show v.state.widget.selectedIndex ≤ (v.state.widget.suggestions.length : Int) - 1
        omega
      · exact absurd (show true = false from h) (by decide)
    · simp only [Autocomplete.renderSuggestions, h0, hall, if_true, Bool.false_eq_true,
        if_false]
      exact AcView.inv_of_hidden _ rfl rfl rfl

/-- A settled request leaves the list hidden or shown with one item per record and no
item highlighted. -/
theorem Autocomplete.searchSettled_inv (v : AcView)
    (reply : Option (Option (List Suggestion))) : (Autocomplete.searchSettled v reply).Inv := by
  cases reply with
  | none => exact AcView.inv_of_hidden _ rfl rfl rfl
  | some data =>
    exact Autocomplete.renderSuggestions_inv
      (v.withWidget { v.state.widget with suggestions := data.getD [], selectedIndex := -1 }) rfl

/-- Every event keeps the invariant of the list. -/
theorem AcView.view_step_inv (v : AcView) (e : ViewEvent) (hv : v.Inv) : (v.step e).Inv := by
  cases e with
  | widget e =>
    exact AcView.inv_of_settles v _ hv rfl (Autocomplete.step_settles v.state e)
  | keydown key =>
    obtain ⟨v', hk, hinv⟩ := Autocomplete.handleKeydown_inv v key hv
    simp only [AcView.step, hk]
    exact hinv
  | mouseenter index =>
    simp only [AcView.step]
    split
    · rename_i hr
      simp only [AcView.reachable, Bool.and_eq_true, bne_iff_ne, ne_eq,
        decide_eq_true_eq] at hr
      have hopen := hv.displayed hr.1
      have hitems := hv.rendered hopen
      have hlt : index < v.state.widget.suggestions.length := by
        rw [← hitems]
        exact hr.2
      refine ⟨?_, ?_, fun _ => hopen, hv.rendered, fun h => ?_⟩
      · show (-1 : Int) ≤ (index : Int)
        omega
      · show (index : Int) ≤ (v.state.widget.suggestions.length : Int) - 1
        omega
      · have h' : v.state.widget.isOpen = false := h
        rw [hopen] at h'
        exact absurd h' (by decide)
    · exact hv
  | click index =>
    simp only [AcView.step]
    split
    · simp only [Autocomplete.itemClick]
      split
      · exact Autocomplete.selectSuggestion_inv _ _
      · exact hv
    · exact hv
  | searchSettled reply => exact Autocomplete.searchSettled_inv v reply
  | clear => exact Autocomplete.clear_inv v

theorem AcView.view_run_inv (v : AcView) (events : List ViewEvent) (hv : v.Inv) :
    (v.run events).Inv := by
  induction events generalizing v with
  | nil => exact hv
  | cons e es ih => exact ih _ (AcView.view_step_inv v e hv)

theorem AcView.view_start_inv (options : AutocompleteOptions) (value : String) (now : Nat) :
    (AcView.start options value now).Inv :=
  AcView.inv_of_hidden _ rfl rfl rfl

/-- C12: in every state the widget reaches through its events (input, blur, focus,
time passing, a key, the pointer over or a click on an item that can be reached, a
settled request, `clear`), the highlighted index is within the bounds of the list,
`-1 <= selectedIndex <= suggestions.length - 1`; no key makes `handleKeydown` throw,
and an Enter keydown on an open list with a highlighted item commits the record
`suggestions[selectedIndex]`, which exists. -/
theorem selectedIndex_in_bounds (options : AutocompleteOptions) (initial : String) (now : Nat)
    (events : List ViewEvent) :
    -1 ≤ ((AcView.start options initial now).run events).state.widget.selectedIndex ∧
    ((AcView.start options initial now).run events).state.widget.selectedIndex
      ≤ (((AcView.start options initial now).run events).state.widget.suggestions.length : Int)
        - 1 ∧
    (∀ key, ∃ v', Autocomplete.handleKeydown ((AcView.start options initial now).run events) key
      = .ok v') ∧
    (((AcView.start options initial now).run events).state.widget.isOpen = true →
      0 ≤ ((AcView.start options initial now).run events).state.widget.selectedIndex →
      ∃ suggestion,
        ((AcView.start options initial now).run events).state.widget.suggestions[
          ((AcView.start options initial now).run events).state.widget.selectedIndex.toNat]?
          = some suggestion ∧
        Autocomplete.handleKeydown ((AcView.start options initial now).run events) .enter
          = .ok (Autocomplete.selectSuggestion ((AcView.start options initial now).run events)
              suggestion)) := by
  have hinv := AcView.view_run_inv _ events (AcView.view_start_inv options initial now)
  refine ⟨hinv.lower, hinv.upper, fun key => ?_, fun hopen hsel => ?_⟩
  · obtain ⟨v', hk, _⟩ := Autocomplete.handleKeydown_inv _ key hinv
    exact ⟨v', hk⟩
  · have hup := hinv.upper
    have hlt : ((AcView.start options initial now).run events).state.widget.selectedIndex.toNat
        < ((AcView.start options initial now).run events).state.widget.suggestions.length := by
      omega
    refine ⟨_, List.getElem?_eq_getElem hlt, ?_⟩
    simp [Autocomplete.handleKeydown, hopen, hsel, List.getElem?_eq_getElem hlt]

/-- C12 after a reply with two records and one ArrowDown: the list is open, the first
record is highlighted, and Enter commits it. -/
theorem selectedIndex_in_bounds_witness :
    ((AcView.start AutocompleteOptions.defaults "" 0).run
      [.searchSettled (some (some sampleSuggestions)), .keydown .arrowDown]).state.widget.isOpen
      = true ∧
    0 ≤ ((AcView.start AutocompleteOptions.defaults "" 0).run
      [.searchSettled (some (some sampleSuggestions)),
        .keydown .arrowDown]).state.widget.selectedIndex ∧
    ∃ suggestion,
      ((AcView.start AutocompleteOptions.defaults "" 0).run
        [.searchSettled (some (some sampleSuggestions)),
          .keydown .arrowDown]).state.widget.suggestions[
        ((AcView.start AutocompleteOptions.defaults "" 0).run
          [.searchSettled (some (some sampleSuggestions)),
            .keydown .arrowDown]).state.widget.selectedIndex.toNat]? = some suggestion ∧
      Autocomplete.handleKeydown
          ((AcView.start AutocompleteOptions.defaults "" 0).run
            [.searchSettled (some (some sampleSuggestions)), .keydown .arrowDown]) .enter
        = .ok (Autocomplete.selectSuggestion
            ((AcView.start AutocompleteOptions.defaults "" 0).run
              [.searchSettled (some (some sampleSuggestions)), .keydown .arrowDown])
            suggestion) :=
  ⟨by decide, by decide,
    (selectedIndex_in_bounds AutocompleteOptions.defaults "" 0
      [.searchSettled (some (some sampleSuggestions)), .keydown .arrowDown]).2.2.2
      (by decide) (by decide)⟩

/-! ## Pagination -/

/-- The window of page numbers lies within the pages, contains the current page and
has `min 7 total_pages` pages. -/
theorem pageWindow_spec (currentPage totalPages : Int) (h1 : 1 < totalPages)
    (h2 : 1 ≤ currentPage) (h3 : currentPage ≤ totalPages) :
    1 ≤ (pageWindow currentPage totalPages).1 ∧
    (pageWindow currentPage totalPages).1 ≤ currentPage ∧
    currentPage ≤ (pageWindow currentPage totalPages).2 ∧
    (pageWindow currentPage totalPages).2 ≤ totalPages ∧
    (pageWindow currentPage totalPages).2 - (pageWindow currentPage totalPages).1 + 1
      = min 7 totalPages := by
  have h72 : (7 : Int) / 2 = 3 := by decide
  simp only [pageWindow, h72]
  split <;> omega

/-- A filter that only the index `j` passes keeps exactly `j` of the indices below
`n`. -/
theorem filter_range_unique (p : Nat → Bool) (j n : Nat) (hj : j < n)
    (hp : ∀ k, p k = true ↔ k = j) : (List.range n).filter p = [j] := by
  induction n with
  | zero => omega
  | succ m ih =>
    rw [List.range_succ, List.filter_append]
    by_cases hjm : j < m
    · have hm : p m = false := by
        cases h : p m with
        | false => rfl
        | true => have := (hp m).mp h; omega
      rw [ih hjm]
      simp [hm]
    · have hjm' : j = m := by omega
      have hnil : (List.range m).filter p = [] := by
        rw [List.filter_eq_nil_iff]
        intro k hk hpk
        have := (hp k).mp hpk
        have := List.mem_range.mp hk
        omega
      have hm : p m = true := (hp m).mpr hjm'.symm
      rw [hnil]
      simp [hm, hjm']

theorem numberedLinks_append (a b : List PageControl) :
    numberedLinks (a ++ b) = numberedLinks a + numberedLinks b := by
  simp [numberedLinks, List.filter_append]

/-- Every link of the window is a numbered link. -/
theorem numberedLinks_windowLinks (startPage endPage currentPage : Int) :
    numberedLinks (windowLinks startPage endPage currentPage)
      = (endPage - startPage + 1).toNat := by
  simp [numberedLinks, windowLinks, List.filter_map, Function.comp_def, PageControl.isNumbered]

/-- The links of the window that are active: the one of the current page. -/
theorem filter_isActive_windowLinks (startPage endPage currentPage : Int)
    (hs : startPage ≤ currentPage) (he : currentPage ≤ endPage) :
    (windowLinks startPage endPage currentPage).filter PageControl.isActive
      = [.number currentPage true] := by
  have hu := filter_range_unique (fun k : Nat => decide (startPage + (k : Int) = currentPage))
    (currentPage - startPage).toNat (endPage - startPage + 1).toNat (by omega)
    (by
      intro k
      simp only [decide_eq_true_eq]
      omega)
  simp only [windowLinks, List.filter_map, Function.comp_def, PageControl.isActive, hu,
    List.map_cons, List.map_nil]
  have e : startPage + ((currentPage - startPage).toNat : Int) = currentPage := by omega
  rw [e]
  simp

/-- The links of the window that lead to the current page: the one that is active. -/
theorem filter_linksTo_windowLinks (startPage endPage currentPage : Int)
    (hs : startPage ≤ currentPage) (he : currentPage ≤ endPage) :
    (windowLinks startPage endPage currentPage).filter (PageControl.linksTo currentPage)
      = [.number currentPage true] := by
  have hu := filter_range_unique (fun k : Nat => decide (startPage + (k : Int) = currentPage))
    (currentPage - startPage).toNat (endPage - startPage + 1).toNat (by omega)
    (by
      intro k
      simp only [decide_eq_true_eq]
      omega)
  simp only [windowLinks, List.filter_map, Function.comp_def, PageControl.linksTo, hu,
    List.map_cons, List.map_nil]
  have e : startPage + ((currentPage - startPage).toNat : Int) = currentPage := by omega
  rw [e]
  simp

/-- The numbered links of a pagination list: the collapsed first-page link, the
window, and the collapsed last-page link. -/
theorem numberedLinks_paginationControls (pagination : Pagination) :
    numberedLinks (paginationControls pagination)
      = (if (pageWindow pagination.current_page pagination.total_pages).1 > 1 then 1 else 0)
        + ((pageWindow pagination.current_page pagination.total_pages).2
            - (pageWindow pagination.current_page pagination.total_pages).1 + 1).toNat
        + (if (pageWindow pagination.current_page pagination.total_pages).2
            < pagination.total_pages then 1 else 0) := by
  simp only [paginationControls, numberedLinks_append, numberedLinks_windowLinks]
  have hp : numberedLinks (if pagination.has_previous
      then [PageControl.previous pagination.previous_page] else []) = 0 := by
    split <;> rfl
  have hn : numberedLinks (if pagination.has_next
      then [PageControl.next pagination.next_page] else []) = 0 := by
    split <;> rfl
  have hf : numberedLinks (if (pageWindow pagination.current_page pagination.total_pages).1 > 1
      then PageControl.first ::
        (if (pageWindow pagination.current_page pagination.total_pages).1 > 2
          then [PageControl.ellipsis] else [])
      else [])
      = (if (pageWindow pagination.current_page pagination.total_pages).1 > 1 then 1 else 0) := by
    split
    · split <;> rfl
    · rfl
  have hl : numberedLinks (if (pageWindow pagination.current_page pagination.total_pages).2
        < pagination.total_pages
      then (if (pageWindow pagination.current_page pagination.total_pages).2
          < pagination.total_pages - 1 then [PageControl.ellipsis] else [])
        ++ [PageControl.last pagination.total_pages]
      else [])
      = (if (pageWindow pagination.current_page pagination.total_pages).2
          < pagination.total_pages then 1 else 0) := by
    split
    · split <;> rfl
    · rfl
  rw [hp, hn, hf, hl]
  omega

/-- What `displaySkladPagination` leaves in the pagination list for a record with more
than one page. -/
theorem displaySkladPagination_controls (m : SkladModal) (controls : List PageControl)
    (pagination : Pagination) (hm : m.skladPaginationList = some controls)
    (h1 : 1 < pagination.total_pages) :
    (displaySkladPagination m (some pagination)).1.skladPaginationList
      = some (paginationControls pagination) := by
  have : ¬ pagination.total_pages ≤ 1 := by omega
  simp [displaySkladPagination, hm, this]

/-- C14, on the code: on page 10 of 20 the list holds the links 7 to 13 of the window
and the links 1 and 20, nine numbered page links, where the comment on
`maxVisiblePages` says at most 7 page numbers are shown. -/
theorem displaySkladPagination_nine_links :
    (displaySkladPagination (sampleModal "" []) (some samplePagination)).1.skladPaginationList
      = some [.previous (some 9), .first, .ellipsis, .number 7 false, .number 8 false,
          .number 9 false, .number 10 true, .number 11 false, .number 12 false,
          .number 13 false, .ellipsis, .last 20, .next (some 11)] ∧
    numberedLinks (paginationControls samplePagination) = 9 ∧
    ¬ numberedLinks (paginationControls samplePagination) ≤ 7 := by
  refine ⟨?_, by decide, by decide⟩
  rw [displaySkladPagination_controls _ [] _ rfl (by decide)]
  decide

/-- How many numbered links the code renders for a record with more than one page
whose current page is one of them: at most 7 in the window of page numbers, and up to
2 more for the collapsed first-page and last-page links. -/
theorem displaySkladPagination_numbered_links (m : SkladModal) (controls : List PageControl)
    (pagination : Pagination) (hm : m.skladPaginationList = some controls)
    (h1 : 1 < pagination.total_pages) (h2 : 1 ≤ pagination.current_page)
    (h3 : pagination.current_page ≤ pagination.total_pages) :
    (displaySkladPagination m (some pagination)).1.skladPaginationList
      = some (paginationControls pagination) ∧
    numberedLinks (windowLinks (pageWindow pagination.current_page pagination.total_pages).1
      (pageWindow pagination.current_page pagination.total_pages).2 pagination.current_page)
      ≤ 7 ∧
    numberedLinks (paginationControls pagination) ≤ 9 := by
  obtain ⟨_, _, _, _, w5⟩ := pageWindow_spec _ _ h1 h2 h3
  refine ⟨displaySkladPagination_controls m controls pagination hm h1, ?_, ?_⟩
  · rw [numberedLinks_windowLinks]
    omega
  · rw [numberedLinks_paginationControls]
    split <;> split <;> omega

/-- The count of numbered links at page 10 of 20. -/
theorem displaySkladPagination_numbered_links_witness :
    (displaySkladPagination (sampleModal "" []) (some samplePagination)).1.skladPaginationList
      = some (paginationControls samplePagination) ∧
    numberedLinks (windowLinks
      (pageWindow samplePagination.current_page samplePagination.total_pages).1
      (pageWindow samplePagination.current_page samplePagination.total_pages).2
      samplePagination.current_page) ≤ 7 ∧
    numberedLinks (paginationControls samplePagination) ≤ 9 :=
  displaySkladPagination_numbered_links (sampleModal "" []) [] samplePagination rfl
    (by decide) (by decide) (by decide)

/-- C20: for a record with more than one page whose current page is one of them, the
window satisfies `1 <= startPage <= current_page <= endPage <= total_pages` and has
`min(7, total_pages)` pages, and in the list `displaySkladPagination` leaves exactly
one control is active and exactly one numbered link leads to the current page: the
link of the current page in the window. -/
theorem pageWindow_contains_current (m : SkladModal) (controls : List PageControl)
    (pagination : Pagination) (hm : m.skladPaginationList = some controls)
    (h1 : 1 < pagination.total_pages) (h2 : 1 ≤ pagination.current_page)
    (h3 : pagination.current_page ≤ pagination.total_pages) :
    1 ≤ (pageWindow pagination.current_page pagination.total_pages).1 ∧
    (pageWindow pagination.current_page pagination.total_pages).1 ≤ pagination.current_page ∧
    pagination.current_page ≤ (pageWindow pagination.current_page pagination.total_pages).2 ∧
    (pageWindow pagination.current_page pagination.total_pages).2 ≤ pagination.total_pages ∧
    (pageWindow pagination.current_page pagination.total_pages).2
      - (pageWindow pagination.current_page pagination.total_pages).1 + 1
      = min 7 pagination.total_pages ∧
    (displaySkladPagination m (some pagination)).1.skladPaginationList
      = some (paginationControls pagination) ∧
    (paginationControls pagination).filter PageControl.isActive
      = [.number pagination.current_page true] ∧
    (paginationControls pagination).filter (PageControl.linksTo pagination.current_page)
      = [.number pagination.current_page true] := by
  obtain ⟨w1, w2, w3, w4, w5⟩ := pageWindow_spec _ _ h1 h2 h3
  refine ⟨w1, w2, w3, w4, w5, displaySkladPagination_controls m controls pagination hm h1,
    ?_, ?_⟩
  · simp only [paginationControls, List.filter_append, filter_isActive_windowLinks _ _ _ w2 w3]
    have hp : (if pagination.has_previous
        then [PageControl.previous pagination.previous_page] else []).filter
          PageControl.isActive = [] := by
      split <;> rfl
    have hn : (if pagination.has_next
        then [PageControl.next pagination.next_page] else []).filter
          PageControl.isActive = [] := by
      split <;> rfl
    have hf : (if (pageWindow pagination.current_page pagination.total_pages).1 > 1
        then PageControl.first ::
          (if (pageWindow pagination.current_page pagination.total_pages).1 > 2
            then [PageControl.ellipsis] else [])
        else []).filter PageControl.isActive = [] := by
      split
      · split <;> rfl
      · rfl
    have hl : (if (pageWindow pagination.current_page pagination.total_pages).2
          < pagination.total_pages
        then (if (pageWindow pagination.current_page pagination.total_pages).2
            < pagination.total_pages - 1 then [PageControl.ellipsis] else [])
          ++ [PageControl.last pagination.total_pages]
        else []).filter PageControl.isActive = [] := by
      split
      · split <;> rfl
      · rfl
    rw [hp, hn, hf, hl]
    rfl
  · simp only [paginationControls, List.filter_append, filter_linksTo_windowLinks _ _ _ w2 w3]
    have hp : (if pagination.has_previous
        then [PageControl.previous pagination.previous_page] else []).filter
          (PageControl.linksTo pagination.current_page) = [] := by
      split <;> rfl
    have hn : (if pagination.has_next
        then [PageControl.next pagination.next_page] else []).filter
          (PageControl.linksTo pagination.current_page) = [] := by
      split <;> rfl
    have hf : (if (pageWindow pagination.current_page pagination.total_pages).1 > 1
        then PageControl.first ::
          (if (pageWindow pagination.current_page pagination.total_pages).1 > 2
            then [PageControl.ellipsis] else [])
        else []).filter (PageControl.linksTo pagination.current_page) = [] := by
      split
      · rename_i hgt
        have hne : ¬ pagination.current_page = 1 := by omega
        split <;> simp [PageControl.linksTo, hne]
      · rfl
    have hl : (if (pageWindow pagination.current_page pagination.total_pages).2
          < pagination.total_pages
        then (if (pageWindow pagination.current_page pagination.total_pages).2
            < pagination.total_pages - 1 then [PageControl.ellipsis] else [])
          ++ [PageControl.last pagination.total_pages]
        else []).filter (PageControl.linksTo pagination.current_page) = [] := by
      split
      · rename_i hlt
        have hne : ¬ pagination.total_pages = pagination.current_page := by omega
        split <;> simp [PageControl.linksTo, hne]
      · rfl
    rw [hp, hn, hf, hl]
    rfl

/-- C20 at page 10 of 20: the window is 7 to 13. -/
theorem pageWindow_contains_current_witness :
    pageWindow samplePagination.current_page samplePagination.total_pages = (7, 13) ∧
    (paginationControls samplePagination).filter PageControl.isActive
      = [.number samplePagination.current_page true] ∧
    (paginationControls samplePagination).filter
        (PageControl.linksTo samplePagination.current_page)
      = [.number samplePagination.current_page true] :=
  ⟨by decide,
    (pageWindow_contains_current (sampleModal "" []) [] samplePagination rfl (by decide)
      (by decide) (by decide)).2.2.2.2.2.2.1,
    (pageWindow_contains_current (sampleModal "" []) [] samplePagination rfl (by decide)
      (by decide) (by decide)).2.2.2.2.2.2.2⟩

/-! ## The catalogue picker -/

/-- C15, as stated, fails for a reply with no items whose pagination record reports
three pages: the table shows the placeholder row, but the pagination list holds the
links 1 to 3 and Next. -/
theorem empty_reply_with_pages :
    (loadSkladDataSettled (sampleModal "" [])
        (some ⟨some [], some ⟨1, 3, false, true, none, some 2⟩⟩)).skladTableBody
      = some [SkladRow.placeholder] ∧
    (loadSkladDataSettled (sampleModal "" [])
        (some ⟨some [], some ⟨1, 3, false, true, none, some 2⟩⟩)).skladPaginationList
      = some [.number 1 true, .number 2 false, .number 3 false, .next (some 2)] := by
  constructor
  · rfl
  · show some (paginationControls ⟨1, 3, false, true, none, some 2⟩) = _
    decide

/-- C15, amended: for a reply whose items list is empty and whose pagination record
reports at most one page, rendering it leaves the catalogue table with exactly one
row, the placeholder, and the pagination list with no controls. -/
theorem empty_reply_placeholder (m : SkladModal) (rows : List SkladRow)
    (controls : List PageControl) (pagination : Pagination)
    (hb : m.skladTableBody = some rows) (hl : m.skladPaginationList = some controls)
    (hp : pagination.total_pages ≤ 1) :
    (loadSkladDataSettled m (some ⟨some [], some pagination⟩)).skladTableBody
      = some [SkladRow.placeholder] ∧
    (loadSkladDataSettled m (some ⟨some [], some pagination⟩)).skladPaginationList
      = some [] := by
  simp [loadSkladDataSettled, displaySkladItems, displaySkladPagination, hb, hl, hp]

/-- C15, amended, at a table that showed one item and a reply of one empty page. -/
theorem empty_reply_placeholder_witness :
    (loadSkladDataSettled (sampleModal "" [sampleItem.row])
        (some ⟨some [], some ⟨1, 1, false, false, none, none⟩⟩)).skladTableBody
      = some [SkladRow.placeholder] ∧
    (loadSkladDataSettled (sampleModal "" [sampleItem.row])
        (some ⟨some [], some ⟨1, 1, false, false, none, none⟩⟩)).skladPaginationList
      = some [] :=
  empty_reply_placeholder (sampleModal "" [sampleItem.row]) [sampleItem.row] []
    ⟨1, 1, false, false, none, none⟩ rfl rfl (by decide)

/-- C16, on the code: handlers that use an element without a guard.  With the search
input missing the unit filter listener and the clear button listener throw, with the
unit filter missing the search input listener throws, with the catalogue table body
missing `displaySkladItems` throws, with the pagination list missing
`displaySkladPagination` throws, and with the items table body missing
`addNewItemRow` and `updateFormsetManagement` throw. -/
theorem unguarded_element_lookups :
    skladUnitFilterChange { sampleModal "" [] with searchInput := none } "бр."
      = .error .typeError ∧
    skladClearClick { sampleModal "" [] with searchInput := none } = .error .typeError ∧
    skladSearchInput { sampleModal "" [] with unitFilter := none } "a" = .error .typeError ∧
    (displaySkladItems { sampleModal "" [] with skladTableBody := none } (some [])).2
      = some .typeError ∧
    (displaySkladPagination { sampleModal "" [] with skladPaginationList := none }
      (some samplePagination)).2 = some .typeError ∧
    addNewItemRow { examplePage [] with itemsTableBody := none } = .error .typeError ∧
    updateFormsetManagement { examplePage [] with itemsTableBody := none }
      = .error .typeError := by
  refine ⟨rfl, rfl, ?_, rfl, rfl, rfl, rfl⟩
  have h : jsLength (jsTrim "a") < 2 := by decide
  simp [skladSearchInput, sampleModal, h, loadSkladData]

/-- C17, as stated, fails for the catalogue: a failed query leaves the catalogue
picker exactly as it was, so a table that showed an item still shows it. -/
theorem failed_catalog_query_changes_nothing :
    loadSkladDataSettled (sampleModal "" [sampleItem.row]) none
      = sampleModal "" [sampleItem.row] ∧
    (loadSkladDataSettled (sampleModal "" [sampleItem.row]) none).skladTableBody
      = some [sampleItem.row] :=
  ⟨rfl, rfl⟩

/-- C17, amended: a failed `Autocomplete.search` leaves the suggestion list closed
(`isOpen` false, container hidden, nothing highlighted), and a failed catalogue query
is caught and leaves the catalogue table and the pagination list as they were. -/
theorem failed_requests_are_caught (v : AcView) (m : SkladModal) :
    (Autocomplete.searchSettled v none).state.widget.isOpen = false ∧
    (Autocomplete.searchSettled v none).state.widget.containerDisplay = "none" ∧
    (Autocomplete.searchSettled v none).state.widget.selectedIndex = -1 ∧
    loadSkladDataSettled m none = m :=
  ⟨rfl, rfl, rfl, rfl⟩

/-- C18, on the code: for the search text `a`, one character after trimming, the
search input listener sends the query at once, for page 1, and the query carries
`search=a`. -/
theorem short_search_text_is_sent :
    jsLength (jsTrim "a") < 2 ∧
    ∃ m', skladSearchInput (sampleModal "" []) "a" = .ok m' ∧
      m'.queries = [{ page := 1, search := some "a", unit := none }] := by
  have h : jsLength (jsTrim "a") < 2 := by decide
  refine ⟨h, { sampleModal "a" [] with
    currentPage := 1, queries := [{ page := 1, search := some "a", unit := none }] }, ?_, rfl⟩
  have ht : jsTrim "a" = "a" := by decide
  have hl : jsLength "a" < 2 := by decide
  simp [skladSearchInput, sampleModal, loadSkladData, ht, hl]

/-! ## The dropdown of `setupAutocomplete` -/

/-- The variable `dropdown` of the closure is never assigned. -/
theorem SetupAutocomplete.dropdown_never_assigned (url initial : String) (now : Nat)
    (events : List SetupEvent) (reply : Option (Option (List Suggestion)))
    (target : ClickTarget) :
    (SetupAutocomplete.run (SetupAutocomplete.start url initial now) events).closure.dropdown
      = none ∧
    (SetupAutocomplete.replySettled
      (SetupAutocomplete.run (SetupAutocomplete.start url initial now) events)
      reply).closure.dropdown = none ∧
    SetupAutocomplete.documentClick
      (SetupAutocomplete.replySettled
        (SetupAutocomplete.run (SetupAutocomplete.start url initial now) events) reply) target
      = SetupAutocomplete.replySettled
        (SetupAutocomplete.run (SetupAutocomplete.start url initial now) events) reply := by
  have hrun : ∀ (s : SetupState) (es : List SetupEvent), s.closure.dropdown = none →
      (SetupAutocomplete.run s es).closure.dropdown = none := by
    intro s es
    induction es generalizing s with
    | nil => exact id
    | cons e es ih =>
      intro hs
      refine ih (SetupAutocomplete.step s e) ?_
      cases e with
      | input value =>
        simp only [SetupAutocomplete.step, SetupAutocomplete.handleInput]
        split <;> simp [hs]
      | elapse ms => exact hs
  have h1 := hrun (SetupAutocomplete.start url initial now) events rfl
  have h2 : (SetupAutocomplete.replySettled
      (SetupAutocomplete.run (SetupAutocomplete.start url initial now) events)
      reply).closure.dropdown = none := by
    simp only [SetupAutocomplete.replySettled]
    split
    · split
      · exact h1
      · exact h1
    · exact h1
  refine ⟨h1, h2, ?_⟩
  simp only [SetupAutocomplete.documentClick, h2]

/-- C19, on the code: for the client name input, after a reply with two suggestions
the dropdown is shown, and a click elsewhere in the document leaves it shown. -/
theorem documentClick_leaves_dropdown :
    (SetupAutocomplete.replySettled
      (SetupAutocomplete.run (SetupAutocomplete.start "/poruchki/autocomplete/client/" "" 0)
        [.input "iv"])
      (some (some sampleSuggestions))).closure.shown = some sampleSuggestions ∧
    (SetupAutocomplete.documentClick
      (SetupAutocomplete.replySettled
        (SetupAutocomplete.run (SetupAutocomplete.start "/poruchki/autocomplete/client/" "" 0)
          [.input "iv"])
        (some (some sampleSuggestions))) .elsewhere).closure.shown = some sampleSuggestions := by
  constructor <;> decide

end OrderForm
